import Mathlib

/-!
Verification development for the multi-modal research agent repository.

The repository implements two LangGraph workflow pipelines:

* Variant A (`src/agent/graph.py`): a content-research pipeline with seven
  nodes, three conditional routers, and a shared `ResearchState` mapping.
* Variant B (`src/lead_agent/graph.py`): a linear lead-identification
  pipeline with two nodes.

This file shallowly embeds the pure parts of that code: the workflow state
(a mapping from field names to Python/JSON values), the three routers, the
per-node state update logic (with every external collaborator call — LLM,
TTS, HTTP search, blob storage — abstracted as an oracle parameter that can
either return a value or raise), the pure string utilities
(`build_linkedin_cse_query`, `parse_leads_from_gemini_response`, the report
assembly of `create_research_report`, the storage fallbacks), and a model of
the LangGraph executor loop (fuel-bounded node stepping with key-wise state
merge and an output-schema projection).

Python exceptions are modelled with `Except PyExn`; a Python function that
cannot raise is embedded as a total Lean function.
-/

namespace ResearchAgent

/-- A Python/JSON value as stored in the workflow state mappings.
Covers the value shapes used by both pipelines: strings, booleans,
numbers, `None`, lists, and dicts (lead/contact objects). -/
inductive Json where
  | null : Json
  | bool (b : Bool) : Json
  | num (n : Int) : Json
  | str (s : String) : Json
  | arr (xs : List Json) : Json
  | obj (fields : List (String × Json)) : Json
deriving Repr

/-- Python truthiness of a value: `None`, `False`, `0`, `""`, `[]` and
`{}` are falsy, everything else is truthy. -/
def truthy : Json → Bool
  | .null => false
  | .bool b => b
  | .num n => n != 0
  | .str s => !s.isEmpty
  | .arr xs => !xs.isEmpty
  | .obj fs => !fs.isEmpty

/-- Truthiness of `state.get(k)`: a missing key behaves like `None`. -/
def truthyOpt : Option Json → Bool
  | none => false
  | some v => truthy v

/-- Approximation of Python `str()` as used for f-string interpolation of
state values (`None` renders as `"None"`, booleans as `True`/`False`).
Container values are rendered only approximately; no claim depends on the
exact rendering of a container inside an f-string. -/
def pyStr : Json → String
  | .null => "None"
  | .bool true => "True"
  | .bool false => "False"
  | .num n => toString n
  | .str s => s
  | .arr _ => "[...]"
  | .obj _ => "{...}"

/-- A workflow state (or a node's partial update): a finite mapping from
field names to values, as a key/value association list. -/
abbrev StateMap : Type := List (String × Json)

/-- Dictionary lookup: the value at the first matching key. Python dicts
have unique keys, so the first match is the only one. -/
def lookupJ (k : String) : StateMap → Option Json
  | [] => none
  | (k', v) :: rest => if k' = k then some v else lookupJ k rest

/-- `d[k] = v` on a dict represented as an association list: overwrite the
existing binding of `k` in place, or append a new binding. -/
def setKey (k : String) (v : Json) : StateMap → StateMap
  | [] => [(k, v)]
  | (k', v') :: rest => if k' = k then (k, v) :: rest else (k', v') :: setKey k v rest

/-- Modelled from the spec: the LangGraph state merge, which is not part of
this repository's sources (the repository only declares the `ResearchState`
schema and the per-node partial updates). Per the spec, merging a Step's
returned partial update into the run state is a key-wise overwrite: every
key of the update is written over the state, all other keys are untouched. -/
def mergeState (s u : StateMap) : StateMap :=
  u.foldl (fun acc kv => setKey kv.1 kv.2 acc) s

/-- The keys of a state mapping. -/
def keysOf (s : StateMap) : List String := s.map Prod.fst

/-- A Python exception, as relevant to the embedded code: a `KeyError`
raised by subscripting a missing state field, or any other exception
(e.g. one raised by an external collaborator call). -/
inductive PyExn where
  | keyError (k : String) : PyExn
  | other (msg : String) : PyExn
deriving Repr, DecidableEq

/-- Python `state[k]`: the value if present, otherwise a raised `KeyError`. -/
def subscript (s : StateMap) (k : String) : Except PyExn Json :=
  match lookupJ k s with
  | some v => .ok v
  | none => .error (.keyError k)

/-- The LangGraph terminal label `END` (`"__end__"`). -/
def ENDLabel : String := "__end__"

/-- Router `should_analyze_video` from `src/agent/graph.py`: returns
`"analyze_video"` when `state.get("video_url")` is truthy, otherwise
`"create_report"`. -/
def should_analyze_video (s : StateMap) : String :=
  if truthyOpt (lookupJ "video_url" s) then "analyze_video" else "create_report"

/-- Router `should_create_podcast` from `src/agent/graph.py`: returns
`"create_podcast"` when `state.get("create_podcast", False)` is truthy,
otherwise the terminal label `END`. -/
def should_create_podcast (s : StateMap) : String :=
  if truthy ((lookupJ "create_podcast" s).getD (.bool false)) then "create_podcast"
  else ENDLabel

/-- Python `state.get(k) == lit` for a string literal `lit`: true exactly
when the key is present with that exact string value. -/
def getEqStr (s : StateMap) (k lit : String) : Bool :=
  match lookupJ k s with
  | some (.str a) => a == lit
  | _ => false

/-- Router `should_perform_company_research` from `src/agent/graph.py`:
`"company_leads_path"` when `research_approach` equals
`"Topic Company Leads"` and both `company_name` and `title_areas` are
truthy; in every other case `"topic_only_path"`. -/
def should_perform_company_research (s : StateMap) : String :=
  if getEqStr s "research_approach" "Topic Company Leads" then
    if !truthyOpt (lookupJ "company_name" s) || !truthyOpt (lookupJ "title_areas" s) then
      "topic_only_path"
    else
      "company_leads_path"
  else
    "topic_only_path"

/-! ### String utilities

Python string primitives (`str.find`, `str.strip`, slicing) modelled over
`List Char`. -/

/-- The whitespace characters stripped by Python `str.strip()`. -/
def isPySpace (c : Char) : Bool :=
  c == ' ' || c == '\t' || c == '\n' || c == '\r' || c == '\x0b' || c == '\x0c'

/-- Python `str.strip()`: remove leading and trailing whitespace. -/
def trimChars (s : List Char) : List Char :=
  ((s.dropWhile isPySpace).reverse.dropWhile isPySpace).reverse

/-- `beginsWith pat s`: `pat` is a prefix of `s` (Python `startswith`). -/
def beginsWith : List Char → List Char → Bool
  | [], _ => true
  | _ :: _, [] => false
  | p :: ps, c :: cs => p == c && beginsWith ps cs

/-- Python `haystack.find(pat)`: index of the first occurrence of `pat`
(as `some i`), or `none` when absent (Python returns `-1`). -/
def findSub (pat : List Char) : List Char → Option Nat
  | [] => if beginsWith pat [] then some 0 else none
  | c :: t => if beginsWith pat (c :: t) then some 0 else (findSub pat t).map (· + 1)

/-- Python `haystack.find(pat, start)`: first occurrence at index ≥ `start`. -/
def findSubFrom (pat : List Char) (s : List Char) (start : Nat) : Option Nat :=
  (findSub pat (s.drop start)).map (· + start)

/-- `s` ends with character `c` (Python `endswith` for a single character). -/
def endsWithChar (c : Char) (s : List Char) : Bool :=
  match s.getLast? with
  | some c' => c' == c
  | none => false

/-! ### `parse_leads_from_gemini_response` (`src/agent/utils.py`) -/

/-- One entry of `response.candidates`. `partsText = some txt` models a
candidate whose `.content` and `.content.parts` are non-empty with
`parts[0].text = txt`; `none` models a missing/empty content or parts, in
which case the source leaves `raw_text` at its initial `""`. -/
structure GeminiCandidate where
  partsText : Option String

/-- The shape of a Gemini response as inspected by
`parse_leads_from_gemini_response`: an optional `.text` attribute (where
`none` covers both an absent attribute and a `None` value) and a
`.candidates` list (where `[]` covers both an absent attribute and an
empty list — both are falsy in the source's `elif`). -/
structure GeminiResponse where
  text : Option String
  candidates : List GeminiCandidate

/-- The `candidates` branch of the `raw_text` extraction. -/
def respRawTextFromCandidates : List GeminiCandidate → Option String
  | [] => none
  | c :: _ => some (c.partsText.getD "")

/-- The `raw_text` extraction of `parse_leads_from_gemini_response`:
a truthy `.text` attribute wins; otherwise the first candidate's first
part text (defaulting to `""`); `none` means the source prints a warning
and returns `[]` (unrecognized response shape). -/
def respRawText (r : GeminiResponse) : Option String :=
  match r.text with
  | some t => if t.isEmpty then respRawTextFromCandidates r.candidates else some t
  | none => respRawTextFromCandidates r.candidates

/-- The fenced-block start marker `"```json"` of the source. -/
def jsonBlockStartMarker : List Char := "```json".toList

/-- The fenced-block end marker `"```"` of the source. -/
def jsonBlockEndMarker : List Char := "```".toList

/-- A candidate block content "looks like JSON" per the source check:
it starts with `[` and ends with `]`, or starts with `\x7b` and ends
with `\x7d`. -/
def looksLikeJson (cand : List Char) : Bool :=
  (beginsWith ['['] cand && endsWithChar ']' cand) ||
  (beginsWith ['\x7b'] cand && endsWithChar '\x7d' cand)

/-- The `json_str` selection of `parse_leads_from_gemini_response`,
operating on the already-stripped `raw_text`: extract the first closed
```` ```json ```` fenced block (skipping one newline directly after the
start marker), keep its stripped content if it looks like JSON, and in
every other case fall back to the whole (stripped) text. -/
def chooseJsonStr (t : List Char) : List Char :=
  match findSub jsonBlockStartMarker t with
  | none => t
  | some i =>
    let cs0 := i + jsonBlockStartMarker.length
    let cs := if (t.drop cs0).head? == some '\n' then cs0 + 1 else cs0
    match findSubFrom jsonBlockEndMarker t cs with
    | none => t
    | some e =>
      let cand := trimChars ((t.drop cs).take (e - cs))
      if looksLikeJson cand then cand else t

/-- `parse_leads_from_gemini_response` from `src/agent/utils.py`.
`jsonLoads` is the `json.loads` collaborator: `some v` models a
successful parse to the value `v`, `none` models a raised
`json.JSONDecodeError` (or any other exception), both of which the
source catches and turns into `[]`. A parse to a non-list value also
yields `[]`. -/
def parse_leads_from_gemini_response (r : GeminiResponse)
    (jsonLoads : String → Option Json) : List Json :=
  match respRawText r with
  | none => []
  | some raw =>
    let t := trimChars raw.toList
    let chosen := chooseJsonStr t
    match jsonLoads (String.mk chosen) with
    | some (.arr xs) => xs
    | some _ => []
    | none => []

/-! ### `build_linkedin_cse_query` and `fetch_linkedin_contacts_via_cse`
(`src/agent/utils.py`) -/

/-- `build_linkedin_cse_query` from `src/agent/utils.py`: double-quote the
company name and each title, join the titles with `" OR "`, and assemble
the `site:linkedin.com/in` query. -/
def build_linkedin_cse_query (company_name : String) (title_areas : List String) : String :=
  let safe_company_name := "\"" ++ company_name ++ "\""
  let safe_title_queries := title_areas.map (fun title => "\"" ++ title ++ "\"")
  let titles_query_part := String.intercalate " OR " safe_title_queries
  "site:linkedin.com/in (" ++ safe_company_name ++ ") (" ++ titles_query_part ++ ")"

/-- `item.get(k, default)` on a JSON object (dict); the CSE result items
are dicts decoded from the search API's JSON response. -/
def jGetD (o : Json) (k : String) (d : Json) : Json :=
  match o with
  | .obj fs => (lookupJ k fs).getD d
  | _ => d

/-- `fetch_linkedin_contacts_via_cse` from `src/agent/utils.py`. The
`request` oracle models `requests.get` + `raise_for_status` + `.json()`
+ `.get('items', [])`: `.ok items` is a successful search yielding the
result items, `.error e` is any raised exception. Every exception class
is caught by the source (HTTPError, RequestException, JSONDecodeError
and the generic `Exception`), so a failed request yields `[]` and the
function itself never raises. -/
def fetch_linkedin_contacts_via_cse (request : Except PyExn (List Json)) : List Json :=
  match request with
  | .ok items => items.map (fun item =>
      Json.obj [("title", jGetD item "title" (.str "N/A")),
                ("link", jGetD item "link" (.str "N/A")),
                ("snippet", jGetD item "snippet" (.str "N/A"))])
  | .error _ => []

/-! ### `create_research_report` and `create_podcast_discussion`
(`src/agent/utils.py`)

The LLM/TTS collaborator calls are oracle parameters; the prompt strings
fed to them are collaborator inputs and are not modelled. The
GCS environment variable and the upload + signed-URL collaborator are
parameters as well. -/

/-- `v == lit` for a Python value and a string literal. -/
def jsonIsStr (v : Json) (lit : String) : Bool :=
  match v with
  | .str a => a == lit
  | _ => false

/-- Truthiness of an environment variable (`os.getenv` result): unset
(`None`) and the empty string are both falsy. -/
def envSet : Option String → Bool
  | none => false
  | some s => !s.isEmpty

/-- `dict.get(k)` (default `None` ↦ `none`) on a JSON object. -/
def jGet (o : Json) (k : String) : Option Json :=
  match o with
  | .obj fs => lookupJ k fs
  | _ => none

/-- `dict.get(k, 'N/A')` rendered into an f-string. -/
def jGetNA (o : Json) (k : String) : String :=
  pyStr (jGetD o k (.str "N/A"))

/-- The arguments of `create_research_report`, in source order.
Parameters that default to `None` in the source are `Json.null` here. -/
structure ReportArgs where
  topic : Json
  research_approach : Json
  search_text : Json
  video_text : Json
  search_sources_text : Json
  video_url : Json
  company_name : Json
  company_specific_topic_research_text : Json
  company_info_text : Json
  identified_leads_data : Json
  linkedin_cse_contacts : Json

/-- The `prompt_title` of `create_research_report`. -/
def reportTitle (a : ReportArgs) : String :=
  "Research Synthesis on \x27" ++ pyStr a.topic ++ "\x27" ++
    (if jsonIsStr a.research_approach "Topic Company Leads" && truthy a.company_name then
      " in Relation to " ++ pyStr a.company_name
    else "")

/-- The markdown lines for one contact point of an opportunity. -/
def formatContactPoint (cp_idx : Nat) (cp : Json) : List String :=
  ["-   **Contact " ++ toString (cp_idx + 1) ++ ":** " ++ jGetNA cp "contact_name" ++
     " (" ++ jGetNA cp "contact_title" ++ ")",
   "    -   Department: " ++ jGetNA cp "contact_department",
   "    -   LinkedIn: " ++
     (if truthyOpt (jGet cp "contact_linkedin_url") then jGetNA cp "contact_linkedin_url"
      else "Not available"),
   "    -   Relevance: " ++ jGetNA cp "contact_relevance_to_opportunity"]

/-- The markdown lines for one potential decision-maker of an opportunity. -/
def formatDecisionMaker (dm_idx : Nat) (dm : Json) : List String :=
  ["-   **Decision Maker " ++ toString (dm_idx + 1) ++ ":** " ++ jGetNA dm "dm_name" ++
     " (" ++ jGetNA dm "dm_title" ++ ")",
   "    -   Rationale: " ++ jGetNA dm "dm_rationale"]

/-- The elements of a JSON list value (a Python `list` being iterated). -/
def jItems : Json → List Json
  | .arr xs => xs
  | _ => []

/-- The markdown lines for one identified B2B opportunity. -/
def formatOpportunity (i : Nat) (opp : Json) : List String :=
  ["### Opportunity " ++ toString (i + 1) ++ ": " ++ jGetNA opp "opportunity_name",
   "**Description:** " ++ jGetNA opp "opportunity_description",
   "**Relevant Departments:** " ++
     (if truthyOpt (jGet opp "relevant_departments") then
        String.intercalate ", " ((jItems (jGetD opp "relevant_departments" (.arr []))).map pyStr)
      else "N/A"),
   "\n**Contact Points for this Opportunity:**"] ++
  (if truthyOpt (jGet opp "contact_points") then
     ((jItems (jGetD opp "contact_points" (.arr []))).enum.map
        (fun p => formatContactPoint p.1 p.2)).flatten
   else ["  No specific contact points identified for this opportunity."]) ++
  ["\n**Potential Decision-Makers for this Opportunity Type:**"] ++
  (if truthyOpt (jGet opp "potential_decision_makers_for_opportunity") then
     ((jItems (jGetD opp "potential_decision_makers_for_opportunity" (.arr []))).enum.map
        (fun p => formatDecisionMaker p.1 p.2)).flatten
   else ["  No specific decision-makers identified for this opportunity type."]) ++
  ["\n---\n"]

/-- The markdown report assembly of `create_research_report` (its
`report_content` local), given the synthesis text produced by the LLM. -/
def reportContent (a : ReportArgs) (synthesis_text : String) : String :=
  let report_sections : List String :=
    ["# " ++ reportTitle a ++ "\n\n" ++ synthesis_text]
  let report_sections :=
    if jsonIsStr a.research_approach "Topic Company Leads" && truthy a.identified_leads_data then
      let opportunities_md_section : List String :=
        ["\n\n## Identified B2B Opportunities\n"] ++
        (if !truthy a.identified_leads_data then
           ["No specific B2B opportunities were identified by the AI."]
         else
           ((jItems a.identified_leads_data).enum.map
              (fun p => formatOpportunity p.1 p.2)).flatten)
      report_sections ++ [String.intercalate "\n" opportunities_md_section]
    else report_sections
  let report_sections :=
    if truthy a.video_url then
      report_sections ++ ["\n\n## Video Source\n- **URL**: " ++
        (if truthy a.video_url then pyStr a.video_url else "Not provided")]
    else report_sections
  let report_sections :=
    if truthy a.search_sources_text then
      report_sections ++ ["\n\n## Additional Research Sources\n" ++
        (if truthy a.search_sources_text then pyStr a.search_sources_text else "None available")]
    else report_sections
  let report_sections :=
    if truthy a.linkedin_cse_contacts then
      let cse_contacts_md_section : List String :=
        ["\n\n## LinkedIn Contacts (via Custom Search)\n"] ++
        (if !truthy a.linkedin_cse_contacts then
           ["No additional LinkedIn contacts found via Custom Search Engine."]
         else
           ((jItems a.linkedin_cse_contacts).enum.map
              (fun p =>
                ["### CSE Contact " ++ toString (p.1 + 1) ++ ": " ++ jGetNA p.2 "title",
                 "-   **Link:** " ++ jGetNA p.2 "link",
                 "-   **Snippet:** " ++ jGetNA p.2 "snippet",
                 "\n"])).flatten)
      report_sections ++ [String.intercalate "\n" cse_contacts_md_section]
    else report_sections
  let report_sections :=
    report_sections ++ ["\n\n---\n*Report generated using multi-modal AI research.*"]
  String.intercalate "\n" report_sections

/-- `create_research_report` from `src/agent/utils.py`, from the synthesis
LLM call onward. `synthesis` is the (uncaught) LLM collaborator call
producing `synthesis_text`; `gcs_bucket_name` is the `GCS_BUCKET_NAME`
environment variable; `upload` is the GCS upload + signed-URL collaborator,
applied to the exact report content that would be uploaded. Returns the
pair `(report_url_or_text, synthesis_text)`: with storage unconfigured the
first component is the raw report content; with storage configured it is
the signed URL, falling back to the raw content when the upload raises
(the `try`/`except` of the source). -/
def create_research_report (a : ReportArgs) (synthesis : Except PyExn String)
    (gcs_bucket_name : Option String) (upload : String → Except PyExn String) :
    Except PyExn (String × String) :=
  match synthesis with
  | .error e => .error e
  | .ok synthesis_text =>
    let report_content := reportContent a synthesis_text
    if !envSet gcs_bucket_name then
      .ok (report_content, synthesis_text)
    else
      match upload report_content with
      | .ok signed_url => .ok (signed_url, synthesis_text)
      | .error _ => .ok (report_content, synthesis_text)

/-- `create_podcast_discussion` from `src/agent/utils.py`. `script` is the
(uncaught) script-generation LLM call producing `podcast_script`; `tts` is
the (uncaught) TTS call (the audio bytes and the local wave file are not
observable in the returned pair); `upload` is the GCS upload + signed-URL
collaborator for the audio file. Returns `(podcast_script, podcast_url)`,
where the URL slot is Python `None` (here `Json.null`) when storage is
unconfigured or the upload raises. -/
def create_podcast_discussion (script : Except PyExn String) (tts : Except PyExn Unit)
    (gcs_bucket_name : Option String) (upload : Except PyExn String) :
    Except PyExn (String × Json) :=
  match script with
  | .error e => .error e
  | .ok podcast_script =>
    match tts with
    | .error e => .error e
    | .ok _ =>
      if !envSet gcs_bucket_name then
        .ok (podcast_script, .null)
      else
        match upload with
        | .ok signed_url => .ok (podcast_script, .str signed_url)
        | .error _ => .ok (podcast_script, .null)

/-! ### Variant A nodes (`src/agent/graph.py`)

Each node is a function from the state to an `Except PyExn` partial
update. The external collaborator calls a node makes are collected in an
`Oracles` record: each oracle is the outcome the collaborator would
produce (`.ok v`) or the exception it would raise (`.error e`). A node
without a `try`/`except` around a call simply propagates the oracle's
error. -/

/-- The collaborator-call outcomes available to one run of the Variant A
pipeline. -/
structure Oracles where
  /-- `generate_content` + `display_gemini_response` in `search_research_node`:
  the `(search_text, search_sources_text)` pair. -/
  searchLLM : Except PyExn (String × String)
  /-- `generate_content` in `company_topic_research_node`: `some txt` when the
  response has a candidate with content parts (`full_research_text = txt`),
  `none` when not (the source leaves `full_research_text = ""`). -/
  companyLLM : Except PyExn (Option String)
  /-- `generate_content` in `identify_leads_node`: the response object later
  fed to `parse_leads_from_gemini_response`. -/
  leadsLLM : Except PyExn GeminiResponse
  /-- The `json.loads` collaborator used by the lead parser. -/
  jsonLoads : String → Option Json
  /-- `generate_content` + `display_gemini_response` in `analyze_video_node`:
  the `(video_text, _)` pair. -/
  videoLLM : Except PyExn (String × String)
  /-- The synthesis LLM call inside `create_research_report`. -/
  synthesisLLM : Except PyExn String
  /-- The `GCS_BUCKET_NAME` environment variable. -/
  gcsBucket : Option String
  /-- GCS upload + signed URL for the report content. -/
  uploadReport : String → Except PyExn String
  /-- The `GOOGLE_API_KEY_FOR_CSE` environment variable. -/
  cseApiKey : Option String
  /-- The `GOOGLE_CSE_ID` environment variable. -/
  cseId : Option String
  /-- `requests.get` + `.json()` + `.get('items', [])` in
  `fetch_linkedin_contacts_via_cse`. -/
  cseRequest : Except PyExn (List Json)
  /-- The podcast script LLM call inside `create_podcast_discussion`. -/
  podcastScriptLLM : Except PyExn String
  /-- The TTS call inside `create_podcast_discussion`. -/
  podcastTTS : Except PyExn Unit
  /-- GCS upload + signed URL for the podcast audio file. -/
  uploadPodcast : Except PyExn String

/-- `search_research_node`: reads `state["topic"]` (a raised `KeyError`
when missing), performs the search LLM call, and returns the
`search_text`/`search_sources_text` update. -/
def search_research_node (s : StateMap) (o : Oracles) : Except PyExn StateMap := do
  let _topic ← subscript s "topic"
  match o.searchLLM with
  | .error e => .error e
  | .ok (search_text, search_sources_text) =>
    .ok [("search_text", .str search_text),
         ("search_sources_text", .str search_sources_text)]

/-- The marker used by `company_topic_research_node` to split the research
text. -/
def companyInfoMarker : List Char := "General Company Information:".toList

/-- Lowering for the case-insensitive marker search
(`full_research_text.lower().find(marker.lower())`). -/
def lowerChars (s : List Char) : List Char := s.map Char.toLower

/-- `company_topic_research_node`: reads `state["topic"]` (raises when
missing) and `state.get("company_name")`; a falsy company name yields the
explicit error-marker update without calling the LLM; otherwise the LLM
call's text is split at the (case-insensitively located)
`"General Company Information:"` marker, falling back to the whole text
as company-specific research when the marker is absent. -/
def company_topic_research_node (s : StateMap) (o : Oracles) : Except PyExn StateMap := do
  let _topic ← subscript s "topic"
  let company_name := lookupJ "company_name" s
  if !truthyOpt company_name then
    .ok [("company_specific_topic_research_text", .str "Error: Company name required."),
         ("company_info_text", .str "Error: Company name required.")]
  else
    match o.companyLLM with
    | .error e => .error e
    | .ok fullOpt =>
      let full_research_text : List Char := (fullOpt.getD "").toList
      match findSub (lowerChars companyInfoMarker) (lowerChars full_research_text) with
      | some marker_idx =>
        let company_specific_text := trimChars (full_research_text.take marker_idx)
        let company_general_text :=
          trimChars (full_research_text.drop (marker_idx + companyInfoMarker.length))
        .ok [("company_specific_topic_research_text", .str (String.mk company_specific_text)),
             ("company_info_text", .str (String.mk company_general_text))]
      | none =>
        .ok [("company_specific_topic_research_text", .str (String.mk full_research_text)),
             ("company_info_text", .str "")]

/-- `identify_leads_node` (Variant A): falsy `company_name` or
`title_areas` yield the empty-list update without calling the LLM;
otherwise the LLM response is parsed with
`parse_leads_from_gemini_response` and written to both
`identified_leads_data` and `identified_leads`. -/
def identify_leads_node (s : StateMap) (o : Oracles) : Except PyExn StateMap :=
  let company_name := lookupJ "company_name" s
  let title_areas := lookupJ "title_areas" s
  if !truthyOpt company_name || !truthyOpt title_areas then
    .ok [("identified_leads_data", .arr []), ("identified_leads", .arr [])]
  else
    match o.leadsLLM with
    | .error e => .error e
    | .ok resp =>
      let identified_leads := parse_leads_from_gemini_response resp o.jsonLoads
      .ok [("identified_leads_data", .arr identified_leads),
           ("identified_leads", .arr identified_leads)]

/-- `analyze_video_node`: reads `state.get("video_url")` and then
`state["topic"]` (raises when the topic is missing, even without a video);
a falsy video URL yields the `"No video provided for analysis."` update
without calling the LLM. -/
def analyze_video_node (s : StateMap) (o : Oracles) : Except PyExn StateMap := do
  let video_url := lookupJ "video_url" s
  let _topic ← subscript s "topic"
  if !truthyOpt video_url then
    .ok [("video_text", .str "No video provided for analysis.")]
  else
    match o.videoLLM with
    | .error e => .error e
    | .ok (video_text, _) =>
      .ok [("video_text", .str video_text)]

/-- `create_report_node`: reads `state["topic"]` and
`state["research_approach"]` (raising when missing), gathers the optional
intermediate fields, and calls `create_research_report`; note that the
node does not pass `linkedin_cse_contacts` (it defaults to `None`). -/
def create_report_node (s : StateMap) (o : Oracles) : Except PyExn StateMap := do
  let topic ← subscript s "topic"
  let research_approach ← subscript s "research_approach"
  let args : ReportArgs :=
    ⟨topic, research_approach,
     (lookupJ "search_text" s).getD .null,
     (lookupJ "video_text" s).getD .null,
     (lookupJ "search_sources_text" s).getD .null,
     (lookupJ "video_url" s).getD .null,
     (lookupJ "company_name" s).getD .null,
     (lookupJ "company_specific_topic_research_text" s).getD .null,
     (lookupJ "company_info_text" s).getD .null,
     (lookupJ "identified_leads_data" s).getD .null,
     .null⟩
  match create_research_report args o.synthesisLLM o.gcsBucket o.uploadReport with
  | .error e => .error e
  | .ok (report_url_or_text, synthesis_text) =>
    .ok [("report", .str report_url_or_text),
         ("synthesis_text", .str synthesis_text)]

/-- `search_linkedin_via_cse_node`: falsy `company_name`/`title_areas`, or
unset CSE credentials in the environment, yield the empty-contacts update
without any HTTP call; otherwise the CSE search runs (itself absorbing
every exception). -/
def search_linkedin_via_cse_node (s : StateMap) (o : Oracles) : Except PyExn StateMap :=
  let company_name := lookupJ "company_name" s
  let title_areas := lookupJ "title_areas" s
  if !truthyOpt company_name || !truthyOpt title_areas then
    .ok [("linkedin_cse_contacts", .arr [])]
  else if !envSet o.cseApiKey || !envSet o.cseId then
    .ok [("linkedin_cse_contacts", .arr [])]
  else
    let _query := build_linkedin_cse_query (pyStr (company_name.getD .null))
      ((jItems (title_areas.getD .null)).map pyStr)
    let linkedin_contacts := fetch_linkedin_contacts_via_cse o.cseRequest
    .ok [("linkedin_cse_contacts", .arr linkedin_contacts)]

/-- `create_podcast_node`: reads `state["topic"]` and
`state["research_approach"]` (raising when missing) and calls
`create_podcast_discussion`; the script-prompt inputs (primary research
text selection) and the local wave filename are inputs to the collaborator
calls and are not observable in the returned update. -/
def create_podcast_node (s : StateMap) (o : Oracles) : Except PyExn StateMap := do
  let _topic ← subscript s "topic"
  let _research_approach ← subscript s "research_approach"
  match create_podcast_discussion o.podcastScriptLLM o.podcastTTS o.gcsBucket o.uploadPodcast with
  | .error e => .error e
  | .ok (podcast_script, podcast_url) =>
    .ok [("podcast_script", .str podcast_script),
         ("podcast_url", podcast_url)]

/-! ### Variant B nodes (`src/lead_agent/graph.py`, `src/lead_agent/utils.py`) -/

namespace LeadAgent

/-- A Gemini response as inspected by the lead agent's
`parse_gemini_json_response`: the texts of `response.parts` (an empty
list models a falsy `.parts`, which leaves `raw_text = ""`). Responses
carrying a tool `function_call` part are not modelled. -/
structure LeadResp where
  partsTexts : List String

/-- Python `str(e)` for the modelled exceptions (`str(KeyError('k'))`
is `"'k'"`). -/
def pyExnMsg : PyExn → String
  | .keyError k => "\x27" ++ k ++ "\x27"
  | .other msg => msg

/-- `"Error:" in s` — Python substring membership. -/
def containsSub (pat s : String) : Bool :=
  (findSub pat.toList s.toList).isSome

/-- The fallback of `parse_gemini_json_response`: parse the whole stripped
text, mapping a decode failure to `([], "Error: ...")`. -/
def leadWholeParse (stripped : String) (jsonLoads : String → Option Json) : Json × String :=
  match jsonLoads stripped with
  | some v => (v, stripped)
  | none => (.arr [], "Error: Could not parse JSON from response. Raw text: " ++ stripped)

/-- `parse_gemini_json_response` from `src/lead_agent/utils.py`: join the
part texts with trailing newlines, look for a ```` ```json ```` block —
note the source advances only 6 characters past the 7-character start
marker, so the extracted candidate always begins with the stray `n` —
and parse it (no bracket check, and the parsed value is returned even
when it is not a list); with no closed block, parse the whole stripped
text. A decode failure yields `[]` together with an `"Error: ..."`
marker string. -/
def parse_gemini_json_response (r : LeadResp) (jsonLoads : String → Option Json) :
    Json × String :=
  let raw_text := r.partsTexts.foldl (fun acc t => acc ++ t ++ "\n") ""
  let rc := raw_text.toList
  let stripped := String.mk (trimChars rc)
  match findSub jsonBlockStartMarker rc with
  | some json_block_start =>
    match findSubFrom jsonBlockEndMarker rc (json_block_start + 6) with
    | some json_block_end =>
      let json_str := String.mk (trimChars
        ((rc.drop (json_block_start + 6)).take (json_block_end - (json_block_start + 6))))
      match jsonLoads json_str with
      | some v => (v, stripped)
      | none => (.arr [], "Error: Could not parse JSON from response. Raw text: " ++ stripped)
    | none => leadWholeParse stripped jsonLoads
  | none => leadWholeParse stripped jsonLoads

/-- The collaborator-call outcomes available to the Variant B nodes. -/
structure LeadOracles where
  /-- `call_gemini_api` in `identify_leads_node` (inside its `try`;
  unreachable in the source, see `get_gemini_model_call`). -/
  geminiCall : Except PyExn LeadResp
  /-- The `json.loads` collaborator used by the parser. -/
  jsonLoads : String → Option Json
  /-- `call_gemini_api` + text extraction in `create_summary_report_node`
  (inside its `try`; unreachable in the source, see
  `get_gemini_model_call`): the extracted report text. -/
  reportCall : Except PyExn String

/-- The `get_gemini_model(..., configuration)` call made by both Variant B
nodes (`src/lead_agent/graph.py:34` and `:110`): it passes two positional
arguments, but `get_gemini_model(model_name: str)` in
`src/lead_agent/utils.py:150` takes a single parameter, so the call raises
`TypeError` unconditionally — and it is made outside each node's `try`
block, so nothing catches it. -/
def get_gemini_model_call : Except PyExn Unit :=
  Except.error (PyExn.other
    "get_gemini_model() takes 1 positional argument but 2 were given")

/-- `identify_leads_node` (Variant B): subscripts `company_name`,
`lead_generation_area` and `titles` (raising `KeyError` when missing),
then calls `get_gemini_model` with two arguments outside the `try` —
an unconditional uncaught `TypeError`. The `try`/`except Exception`
block after it (the Gemini call and the parsing, whose exceptions would
be absorbed into a degraded update with empty lead lists and an
`"Exception: ..."` marker) is kept in the embedding but is dead code,
exactly as in the source. -/
def identify_leads_node (s : StateMap) (o : LeadOracles) : Except PyExn StateMap := do
  let _company_name ← subscript s "company_name"
  let _lead_generation_area ← subscript s "lead_generation_area"
  let _titles ← subscript s "titles"
  let _gemini_model ← get_gemini_model_call
  match o.geminiCall with
  | .error e =>
    .ok [("raw_search_results", .str ("Exception: " ++ pyExnMsg e)),
         ("processed_leads", .arr []),
         ("leads", .arr [])]
  | .ok response =>
    let parsed := parse_gemini_json_response response o.jsonLoads
    let processed_leads := parsed.1
    let raw_response_text := parsed.2
    if !truthy processed_leads && containsSub "Error:" raw_response_text then
      .ok [("raw_search_results", .str raw_response_text),
           ("processed_leads", .arr []),
           ("leads", .arr [])]
    else
      .ok [("raw_search_results", .str raw_response_text),
           ("processed_leads", processed_leads),
           ("leads", processed_leads)]

/-- `create_summary_report_node` (Variant B): subscripts `company_name`,
`lead_generation_area` and `titles` (raising `KeyError` when missing),
reads `processed_leads` with a guarded `get`, then calls
`get_gemini_model` with two arguments outside the `try` — an
unconditional uncaught `TypeError`. The `try`/`except Exception` block
after it (the report LLM call, whose exceptions would be absorbed into a
degraded `report` update, with an empty extracted text becoming the
explicit failure sentinel) is kept in the embedding but is dead code,
exactly as in the source. -/
def create_summary_report_node (s : StateMap) (o : LeadOracles) : Except PyExn StateMap := do
  let _company_name ← subscript s "company_name"
  let _lead_generation_area ← subscript s "lead_generation_area"
  let _titles ← subscript s "titles"
  let _processed_leads := lookupJ "processed_leads" s
  let _gemini_model ← get_gemini_model_call
  match o.reportCall with
  | .error e =>
    .ok [("report", .str ("Exception during report generation: " ++ pyExnMsg e))]
  | .ok extracted =>
    let report_text := String.mk (trimChars extracted.toList)
    let report_text :=
      if report_text.isEmpty then "Failed to generate report text from Gemini response."
      else report_text
    .ok [("report", .str report_text)]

end LeadAgent

/-! ### Executor model

Modelled from the spec: the LangGraph executor (`StateGraph.compile` +
`invoke`/`stream`) is library code, not part of this repository's
sources; the repository only declares the topology. Per the spec the
executor resolves the entry routing, repeatedly invokes the current
Step, merges its partial update into the state key-wise, resolves the
next Step via a direct edge or a router's label map (an unmatched label
is a `RouterLabelError`), stops at the terminal, and enforces a step
limit (`StepLimitExceeded`, guarding against cyclic routing; LangGraph's
`recursion_limit` defaults to 25). The final state is projected onto the
declared output schema. -/

/-- The seven declared nodes of the Variant A topology
(`create_research_graph` in `src/agent/graph.py`). -/
inductive NodeName where
  | search_research : NodeName
  | company_topic_research : NodeName
  | identify_leads : NodeName
  | search_linkedin_via_cse : NodeName
  | analyze_video : NodeName
  | create_report : NodeName
  | create_podcast : NodeName
deriving DecidableEq, Repr

/-- The resolution of an outgoing edge: a successor node, the terminal,
or a router label missing from the declared label map. -/
inductive NextStep (ν : Type) where
  | toNode (n : ν) : NextStep ν
  | toEnd : NextStep ν
  | labelError (label : String) : NextStep ν

/-- An abstract compiled graph: entry resolution, per-node step
functions, and per-node outgoing-edge resolution. -/
structure GraphModel (ν : Type) where
  entry : StateMap → NextStep ν
  step : ν → StateMap → Except PyExn StateMap
  next : ν → StateMap → NextStep ν

/-- The outcome of a run: a final state with the ordered list of visited
nodes, the step limit being exceeded, an uncaught node exception, or a
router label error. -/
inductive ExecResult (ν : Type) where
  | done (finalState : StateMap) (trace : List ν) : ExecResult ν
  | stepLimitExceeded : ExecResult ν
  | nodeError (e : PyExn) : ExecResult ν
  | routerLabelError (label : String) : ExecResult ν

/-- Modelled from the spec: the executor loop from a given node, with a
step-count budget — invoke the node, merge its update key-wise into the
state, resolve the outgoing edge, and continue; a zero budget is
`StepLimitExceeded`. -/
def execFrom {ν : Type} (g : GraphModel ν) : Nat → ν → StateMap → ExecResult ν
  | 0, _, _ => .stepLimitExceeded
  | fuel + 1, n, s =>
    match g.step n s with
    | .error e => .nodeError e
    | .ok u =>
      let s' := mergeState s u
      match g.next n s' with
      | .toEnd => .done s' [n]
      | .labelError l => .routerLabelError l
      | .toNode m =>
        match execFrom g fuel m s' with
        | .done sf tr => .done sf (n :: tr)
        | r => r

/-- Modelled from the spec: a full run — resolve the entry routing, then
execute. -/
def runGraph {ν : Type} (g : GraphModel ν) (fuel : Nat) (s : StateMap) : ExecResult ν :=
  match g.entry s with
  | .toEnd => .done s []
  | .labelError l => .routerLabelError l
  | .toNode n => execFrom g fuel n s

/-- The entry conditional edge of Variant A: `should_perform_company_research`
dispatched through the label map
`{topic_only_path: search_research, company_leads_path: company_topic_research}`. -/
def variantAEntry (s : StateMap) : NextStep NodeName :=
  let label := should_perform_company_research s
  if label == "topic_only_path" then .toNode .search_research
  else if label == "company_leads_path" then .toNode .company_topic_research
  else .labelError label

/-- The video-gate conditional edge: `should_analyze_video` dispatched
through `{analyze_video: analyze_video, create_report: create_report}`
(used after both `search_research` and `search_linkedin_via_cse`). -/
def videoGateNext (s : StateMap) : NextStep NodeName :=
  let label := should_analyze_video s
  if label == "analyze_video" then .toNode .analyze_video
  else if label == "create_report" then .toNode .create_report
  else .labelError label

/-- The podcast-gate conditional edge: `should_create_podcast` dispatched
through `{create_podcast: create_podcast, END: END}`. -/
def podcastGateNext (s : StateMap) : NextStep NodeName :=
  let label := should_create_podcast s
  if label == "create_podcast" then .toNode .create_podcast
  else if label == ENDLabel then .toEnd
  else .labelError label

/-- The edge table of `create_research_graph`. -/
def variantANext : NodeName → StateMap → NextStep NodeName
  | .search_research, s => videoGateNext s
  | .company_topic_research, _ => .toNode .identify_leads
  | .identify_leads, _ => .toNode .search_linkedin_via_cse
  | .search_linkedin_via_cse, s => videoGateNext s
  | .analyze_video, _ => .toNode .create_report
  | .create_report, s => podcastGateNext s
  | .create_podcast, _ => .toEnd

/-- The Variant A compiled graph, over arbitrary per-node step functions
(the topology is fixed by the source; the step bodies vary with the
collaborator outcomes). -/
def variantA (effects : NodeName → StateMap → Except PyExn StateMap) : GraphModel NodeName :=
  ⟨variantAEntry, effects, variantANext⟩

/-- The per-node step functions of Variant A given the collaborator
outcomes of one run. -/
def nodeEffects (o : Oracles) : NodeName → StateMap → Except PyExn StateMap
  | .search_research, s => search_research_node s o
  | .company_topic_research, s => company_topic_research_node s o
  | .identify_leads, s => identify_leads_node s o
  | .search_linkedin_via_cse, s => search_linkedin_via_cse_node s o
  | .analyze_video, s => analyze_video_node s o
  | .create_report, s => create_report_node s o
  | .create_podcast, s => create_podcast_node s o

/-- The declared output schema of Variant A (`ResearchStateOutput` in
`src/agent/state.py`). -/
def outputKeys : List String :=
  ["report", "podcast_script", "podcast_url", "identified_leads"]

/-- Modelled from the spec: the output projection applied by the engine
boundary — the final mapping returned to the caller is the final state
restricted to the declared output schema. -/
def projectOutput (s : StateMap) : StateMap :=
  s.filter (fun kv => outputKeys.contains kv.1)

/-! ### Claim statements and concrete instances -/

/-- The title group of the CSE query as the claim describes it: each title
individually double-quoted and joined by `" OR "`, degenerating to the
empty string for an empty title list. Stated by recursion on the title
list, independently of the source's join-based implementation. -/
def orJoinSpec : List String → String
  | [] => ""
  | [t] => "\"" ++ t ++ "\""
  | t :: ts => "\"" ++ t ++ "\"" ++ " OR " ++ orJoinSpec ts

/-- A fixed set of collaborator outcomes in which every call succeeds
(with empty payloads) and no environment variable is configured. -/
def okOracles : Oracles :=
  ⟨.ok ("", ""), .ok none, .ok ⟨none, []⟩, fun _ => none, .ok ("", ""),
   .ok "", none, fun _ => .ok "", none, none, .ok [], .ok "", .ok (), .ok ""⟩

/-- A fixed set of collaborator outcomes in which every call raises (an
unreachable service) while the environment variables are configured. -/
def downOracles : Oracles :=
  ⟨.error (.other "down"), .error (.other "down"), .error (.other "down"), fun _ => none,
   .error (.other "down"), .error (.other "down"), some "bucket",
   fun _ => .error (.other "down"), some "key", some "id", .error (.other "down"),
   .error (.other "down"), .error (.other "down"), .error (.other "down")⟩

/-- Variant B collaborator outcomes in which the Gemini calls raise (an
unreachable service). -/
def failingLeadOracles : LeadAgent.LeadOracles :=
  ⟨.error (.other "service unreachable"), fun _ => none,
   .error (.other "service unreachable")⟩

/-- The collaborator outcomes for the topic-only scenario: the search and
synthesis LLM calls succeed with the given texts, the storage environment
and upload outcome are arbitrary, and every collaborator belonging to a
node off the topic-only path would raise if it were ever invoked. -/
def scene1Oracles (st sst sy : String) (bucket : Option String)
    (up : Except PyExn String) : Oracles :=
  ⟨.ok (st, sst), .error (.other "not visited"), .error (.other "not visited"),
   fun _ => none, .error (.other "not visited"), .ok sy, bucket, fun _ => up,
   none, none, .error (.other "not visited"), .error (.other "not visited"),
   .error (.other "not visited"), .error (.other "not visited")⟩

/-- A one-node graph whose router always cycles back to the same node:
the spec's example of runaway routing. -/
def loopGraph : GraphModel Unit :=
  ⟨fun _ => .toNode (), fun _ _ => .ok [], fun _ _ => .toNode ()⟩

/-- A one-node graph that performs a single write and terminates (used to
exercise the executor on concrete inputs). -/
def singleStepGraph : GraphModel Unit :=
  ⟨fun _ => NextStep.toNode (), fun _ _ => Except.ok [("w", Json.num 5)],
   fun _ _ => NextStep.toEnd⟩

/-- First half of claim C1 as stated: for every Step in both pipelines,
a missing required input field never raises — the Step returns a partial
(degraded) update and the run continues. One conjunct per Step and
required input field. -/
def claimC1MissingInput : Prop :=
  (∀ o s, lookupJ "topic" s = none → ∃ u, search_research_node s o = Except.ok u) ∧
  (∀ o s, lookupJ "topic" s = none → ∃ u, company_topic_research_node s o = Except.ok u) ∧
  (∀ o s, lookupJ "company_name" s = none → ∃ u, company_topic_research_node s o = Except.ok u) ∧
  (∀ o s, lookupJ "company_name" s = none → ∃ u, identify_leads_node s o = Except.ok u) ∧
  (∀ o s, lookupJ "title_areas" s = none → ∃ u, identify_leads_node s o = Except.ok u) ∧
  (∀ o s, lookupJ "topic" s = none → ∃ u, analyze_video_node s o = Except.ok u) ∧
  (∀ o s, lookupJ "topic" s = none → ∃ u, create_report_node s o = Except.ok u) ∧
  (∀ o s, lookupJ "research_approach" s = none → ∃ u, create_report_node s o = Except.ok u) ∧
  (∀ o s, lookupJ "company_name" s = none → ∃ u, search_linkedin_via_cse_node s o = Except.ok u) ∧
  (∀ o s, lookupJ "title_areas" s = none → ∃ u, search_linkedin_via_cse_node s o = Except.ok u) ∧
  (∀ o s, lookupJ "topic" s = none → ∃ u, create_podcast_node s o = Except.ok u) ∧
  (∀ o s, lookupJ "research_approach" s = none → ∃ u, create_podcast_node s o = Except.ok u) ∧
  (∀ o s, lookupJ "company_name" s = none →
    ∃ u, LeadAgent.identify_leads_node s o = Except.ok u) ∧
  (∀ o s, lookupJ "lead_generation_area" s = none →
    ∃ u, LeadAgent.identify_leads_node s o = Except.ok u) ∧
  (∀ o s, lookupJ "titles" s = none →
    ∃ u, LeadAgent.identify_leads_node s o = Except.ok u) ∧
  (∀ o s, lookupJ "company_name" s = none →
    ∃ u, LeadAgent.create_summary_report_node s o = Except.ok u)

/-- Second half of claim C1 as stated: for every Step in both pipelines,
an exception raised by any of the Step's own collaborator calls (its
required inputs being present) is not caught and propagates, aborting
the run. One conjunct per Step and collaborator call. -/
def claimC1Propagation : Prop :=
  (∀ o s e, (lookupJ "topic" s).isSome → o.searchLLM = Except.error e →
    search_research_node s o = Except.error e) ∧
  (∀ o s e, (lookupJ "topic" s).isSome → truthyOpt (lookupJ "company_name" s) = true →
    o.companyLLM = Except.error e → company_topic_research_node s o = Except.error e) ∧
  (∀ o s e, truthyOpt (lookupJ "company_name" s) = true →
    truthyOpt (lookupJ "title_areas" s) = true →
    o.leadsLLM = Except.error e → identify_leads_node s o = Except.error e) ∧
  (∀ o s e, (lookupJ "topic" s).isSome → truthyOpt (lookupJ "video_url" s) = true →
    o.videoLLM = Except.error e → analyze_video_node s o = Except.error e) ∧
  (∀ o s e, (lookupJ "topic" s).isSome → (lookupJ "research_approach" s).isSome →
    o.synthesisLLM = Except.error e → create_report_node s o = Except.error e) ∧
  (∀ o s e st, (lookupJ "topic" s).isSome → (lookupJ "research_approach" s).isSome →
    envSet o.gcsBucket = true → o.synthesisLLM = Except.ok st →
    (∀ c, o.uploadReport c = Except.error e) →
    create_report_node s o = Except.error e) ∧
  (∀ o s e, truthyOpt (lookupJ "company_name" s) = true →
    truthyOpt (lookupJ "title_areas" s) = true →
    envSet o.cseApiKey = true → envSet o.cseId = true →
    o.cseRequest = Except.error e → search_linkedin_via_cse_node s o = Except.error e) ∧
  (∀ o s e, (lookupJ "topic" s).isSome → (lookupJ "research_approach" s).isSome →
    o.podcastScriptLLM = Except.error e → create_podcast_node s o = Except.error e) ∧
  (∀ o s e script, (lookupJ "topic" s).isSome → (lookupJ "research_approach" s).isSome →
    envSet o.gcsBucket = true → o.podcastScriptLLM = Except.ok script →
    o.podcastTTS = Except.ok () → o.uploadPodcast = Except.error e →
    create_podcast_node s o = Except.error e) ∧
  (∀ o s e, (lookupJ "company_name" s).isSome → (lookupJ "lead_generation_area" s).isSome →
    (lookupJ "titles" s).isSome → o.geminiCall = Except.error e →
    LeadAgent.identify_leads_node s o = Except.error e) ∧
  (∀ o s e, (lookupJ "company_name" s).isSome → (lookupJ "lead_generation_area" s).isSome →
    (lookupJ "titles" s).isSome → o.reportCall = Except.error e →
    LeadAgent.create_summary_report_node s o = Except.error e)

/-- Claim C1 as stated: the two-tier failure model. -/
def claimC1 : Prop := claimC1MissingInput ∧ claimC1Propagation

/-- Claim C5 as stated: whenever the blob-storage bucket is unconfigured,
every step that would upload content and return a signed URL instead
returns the raw content in place of the URL, never a silent empty/`None`
result — for both the report upload and the podcast audio upload. -/
def claimC5 : Prop :=
  (∀ a st bucket upload, envSet bucket = false →
    create_research_report a (Except.ok st) bucket upload =
      Except.ok (reportContent a st, st)) ∧
  (∀ script bucket upload p, envSet bucket = false →
    create_podcast_discussion (Except.ok script) (Except.ok ()) bucket upload =
      Except.ok p → p.2 ≠ Json.null)

/-! ### Lemmas about lookup, overwrite and merge -/

theorem lookupJ_setKey_self (k : String) (v : Json) (s : StateMap) :
    lookupJ k (setKey k v s) = some v := by
  induction s with
  | nil => simp [setKey, lookupJ]
  | cons kv rest ih =>
    obtain ⟨k', v'⟩ := kv
    by_cases h : k' = k
    · simp [setKey, h, lookupJ]
    · simp [setKey, h, lookupJ, ih]

theorem lookupJ_setKey_ne (k q : String) (v : Json) (s : StateMap) (h : k ≠ q) :
    lookupJ q (setKey k v s) = lookupJ q s := by
  induction s with
  | nil => simp [setKey, lookupJ, h]
  | cons kv rest ih =>
    obtain ⟨k', v'⟩ := kv
    by_cases h2 : k' = k
    · subst h2
      simp [setKey, lookupJ, h]
    · simp [setKey, h2, lookupJ, ih]

theorem lookupJ_setKey_isSome (k q : String) (v : Json) (s : StateMap)
    (h : (lookupJ q s).isSome) : (lookupJ q (setKey k v s)).isSome := by
  by_cases hq : k = q
  · subst hq
    simp [lookupJ_setKey_self]
  · rwa [lookupJ_setKey_ne _ _ _ _ hq]

theorem mergeState_nil (s : StateMap) : mergeState s [] = s := rfl

theorem mergeState_cons (s : StateMap) (kv : String × Json) (u : List (String × Json)) :
    mergeState s (kv :: u) = mergeState (setKey kv.1 kv.2 s) u := rfl

theorem lookupJ_mergeState_not_mem (s u : StateMap) (q : String) (h : q ∉ keysOf u) :
    lookupJ q (mergeState s u) = lookupJ q s := by
  induction u generalizing s with
  | nil => rfl
  | cons kv rest ih =>
    obtain ⟨k, v⟩ := kv
    simp only [keysOf, List.map_cons, List.mem_cons, not_or] at h
    rw [mergeState_cons, ih _ h.2, lookupJ_setKey_ne]
    intro e
    exact h.1 e.symm

theorem lookupJ_mergeState_mem (s u : StateMap) (q : String) (v : Json)
    (hnd : (keysOf u).Nodup) (hmem : (q, v) ∈ u) :
    lookupJ q (mergeState s u) = some v := by
  induction u generalizing s with
  | nil => cases hmem
  | cons kv rest ih =>
    obtain ⟨k, w⟩ := kv
    simp only [keysOf, List.map_cons, List.nodup_cons] at hnd
    rw [mergeState_cons]
    rcases List.mem_cons.mp hmem with h | h
    · injection h with h1 h2
      subst h1
      subst h2
      rw [lookupJ_mergeState_not_mem _ _ _ hnd.1, lookupJ_setKey_self]
    · exact ih _ hnd.2 h

theorem lookupJ_mergeState_isSome (s u : StateMap) (q : String)
    (h : (lookupJ q s).isSome) : (lookupJ q (mergeState s u)).isSome := by
  induction u generalizing s with
  | nil => exact h
  | cons kv rest ih =>
    rw [mergeState_cons]
    exact ih _ (lookupJ_setKey_isSome _ _ _ _ h)

/-- Over any executed run, a field present in the state stays present:
the executor only ever merges updates, and a merge never deletes a key. -/
theorem execFrom_preserves_isSome {ν : Type} (g : GraphModel ν) (fuel : Nat) (n : ν)
    (s sf : StateMap) (tr : List ν) (q : String)
    (hrun : execFrom g fuel n s = .done sf tr) (h : (lookupJ q s).isSome) :
    (lookupJ q sf).isSome := by
  induction fuel generalizing n s tr with
  | zero => simp [execFrom] at hrun
  | succ fuel ih =>
    simp only [execFrom] at hrun
    cases hstep : g.step n s with
    | error e => simp [hstep] at hrun
    | ok u =>
      simp only [hstep] at hrun
      cases hnext : g.next n (mergeState s u) with
      | toEnd =>
        simp only [hnext] at hrun
        cases hrun
        exact lookupJ_mergeState_isSome _ _ _ h
      | labelError l => simp [hnext] at hrun
      | toNode m =>
        simp only [hnext] at hrun
        cases hrec : execFrom g fuel m (mergeState s u) with
        | done sf2 tr2 =>
          simp only [hrec] at hrun
          cases hrun
          exact ih _ _ _ hrec (lookupJ_mergeState_isSome _ _ _ h)
        | stepLimitExceeded => simp [hrec] at hrun
        | nodeError e => simp [hrec] at hrun
        | routerLabelError l => simp [hrec] at hrun

/-! ### Router lemmas -/

/-- For a field whose declared type is `Optional[str]`, Python truthiness
of `state.get(k)` coincides with "present with a non-empty string value". -/
theorem truthyOpt_str_typing {s : StateMap} {k : String}
    (hk : ∀ v, lookupJ k s = some v → (∃ c, v = Json.str c) ∨ v = Json.null) :
    truthyOpt (lookupJ k s) = true ↔
      ∃ c, lookupJ k s = some (Json.str c) ∧ c ≠ "" := by
  cases hb : lookupJ k s with
  | none => simp [truthyOpt]
  | some v =>
    rcases hk v hb with ⟨c, rfl⟩ | rfl
    · by_cases hc : c = ""
      · subst hc
        simp [truthyOpt, truthy, String.isEmpty_iff]
      · have hce : c.isEmpty = false := by
          rw [Bool.eq_false_iff]
          intro h
          exact hc ((String.isEmpty_iff c).mp h)
        simp [truthyOpt, truthy, hce, hc]
    · simp [truthyOpt, truthy]

/-- For a field whose declared type is `Optional[List[str]]`, Python
truthiness of `state.get(k)` coincides with "present with a non-empty
list value". -/
theorem truthyOpt_arr_typing {s : StateMap} {k : String}
    (hk : ∀ v, lookupJ k s = some v → (∃ ts, v = Json.arr ts) ∨ v = Json.null) :
    truthyOpt (lookupJ k s) = true ↔
      ∃ ts, lookupJ k s = some (Json.arr ts) ∧ ts ≠ [] := by
  cases hb : lookupJ k s with
  | none => simp [truthyOpt]
  | some v =>
    rcases hk v hb with ⟨ts, rfl⟩ | rfl
    · by_cases hts : ts = []
      · subst hts
        simp [truthyOpt, truthy]
      · simp [truthyOpt, truthy, hts]
    · simp [truthyOpt, truthy]

/-- `state.get(k) == lit` holds exactly when the key is present with that
string value. -/
theorem getEqStr_true_iff (s : StateMap) (k lit : String) :
    getEqStr s k lit = true ↔ lookupJ k s = some (Json.str lit) := by
  unfold getEqStr
  cases hb : lookupJ k s with
  | none => simp
  | some v => cases v <;> simp

/-- Claim C8: the video-gate router returns `analyze_video` exactly when
`video_url` is present with a non-empty (truthy) value, and returns
`create_report` otherwise — in particular when `video_url` is absent,
null, or the empty string (hypothesis: the field, when present, carries a
value of its declared `Optional[str]` type). -/
theorem C8_video_gate_router (s : StateMap)
    (hv : ∀ v, lookupJ "video_url" s = some v → (∃ u, v = Json.str u) ∨ v = Json.null) :
    (should_analyze_video s = "analyze_video" ↔
      ∃ u, lookupJ "video_url" s = some (Json.str u) ∧ u ≠ "") ∧
    (should_analyze_video s = "analyze_video" ∨
     should_analyze_video s = "create_report") := by
  have htyping := truthyOpt_str_typing hv
  unfold should_analyze_video
  by_cases hb : truthyOpt (lookupJ "video_url" s)
  · rw [if_pos hb]
    exact ⟨iff_of_true rfl (htyping.mp hb), Or.inl rfl⟩
  · rw [if_neg hb]
    refine ⟨iff_of_false (by decide) (fun hex => hb (htyping.mpr hex)), Or.inr rfl⟩

/-- Witness for C8 on the spec's examples: a state with
`video_url = "http://v"` routes to `analyze_video`; the empty state and a
state with a null `video_url` route to `create_report`. -/
theorem C8_video_gate_router_witness :
    should_analyze_video [("video_url", Json.str "http://v")] = "analyze_video" ∧
    should_analyze_video [] = "create_report" ∧
    should_analyze_video [("video_url", Json.null)] = "create_report" := by
  refine ⟨?_, rfl, rfl⟩
  have hv : ∀ v, lookupJ "video_url" [("video_url", Json.str "http://v")] = some v →
      (∃ u, v = Json.str u) ∨ v = Json.null := by
    intro v hveq
    have hl : lookupJ "video_url" [("video_url", Json.str "http://v")] =
        some (Json.str "http://v") := rfl
    rw [hl] at hveq
    injection hveq with h
    exact Or.inl ⟨"http://v", h.symm⟩
  exact (C8_video_gate_router _ hv).1.mpr ⟨"http://v", rfl, by decide⟩

/-- Claim C2: the entry router returns `company_leads_path` exactly when
`research_approach = "Topic Company Leads"` and both `company_name` and
`title_areas` are present and non-empty; in every other case it returns
`topic_only_path`, never raising (hypotheses: the two optional fields,
when present, carry values of their declared types). -/
theorem C2_approach_router (s : StateMap)
    (hc : ∀ v, lookupJ "company_name" s = some v → (∃ c, v = Json.str c) ∨ v = Json.null)
    (ht : ∀ v, lookupJ "title_areas" s = some v → (∃ ts, v = Json.arr ts) ∨ v = Json.null) :
    (should_perform_company_research s = "company_leads_path" ↔
      (lookupJ "research_approach" s = some (Json.str "Topic Company Leads") ∧
       (∃ c, lookupJ "company_name" s = some (Json.str c) ∧ c ≠ "") ∧
       (∃ ts, lookupJ "title_areas" s = some (Json.arr ts) ∧ ts ≠ []))) ∧
    (should_perform_company_research s = "company_leads_path" ∨
     should_perform_company_research s = "topic_only_path") := by
  have hct := truthyOpt_str_typing hc
  have htt := truthyOpt_arr_typing ht
  unfold should_perform_company_research
  by_cases hra : getEqStr s "research_approach" "Topic Company Leads"
  · rw [if_pos hra]
    have hra' := (getEqStr_true_iff s "research_approach" "Topic Company Leads").mp hra
    by_cases hcb : truthyOpt (lookupJ "company_name" s)
    · by_cases htb : truthyOpt (lookupJ "title_areas" s)
      · rw [if_neg (by simp [hcb, htb])]
        exact ⟨iff_of_true rfl ⟨hra', hct.mp hcb, htt.mp htb⟩, Or.inl rfl⟩
      · rw [if_pos (by simp [htb])]
        exact ⟨iff_of_false (by decide) (fun hr => htb (htt.mpr hr.2.2)), Or.inr rfl⟩
    · rw [if_pos (by simp [hcb])]
      exact ⟨iff_of_false (by decide) (fun hr => hcb (hct.mpr hr.2.1)), Or.inr rfl⟩
  · rw [if_neg hra]
    refine ⟨iff_of_false (by decide) (fun hr => hra ?_), Or.inr rfl⟩
    exact (getEqStr_true_iff s "research_approach" "Topic Company Leads").mpr hr.1

/-- Witness for C2 on the spec's examples: the company-mode state with
both fields routes to `company_leads_path`; the same approach with
`company_name` absent routes to `topic_only_path`. -/
theorem C2_approach_router_witness :
    should_perform_company_research
      [("research_approach", Json.str "Topic Company Leads"),
       ("company_name", Json.str "X"),
       ("title_areas", Json.arr [Json.str "Y"])] = "company_leads_path" ∧
    should_perform_company_research
      [("research_approach", Json.str "Topic Company Leads")] = "topic_only_path" := by
  refine ⟨?_, rfl⟩
  have hc : ∀ v, lookupJ "company_name"
      [("research_approach", Json.str "Topic Company Leads"),
       ("company_name", Json.str "X"),
       ("title_areas", Json.arr [Json.str "Y"])] = some v →
      (∃ c, v = Json.str c) ∨ v = Json.null := by
    intro v hveq
    have hl : lookupJ "company_name"
        [("research_approach", Json.str "Topic Company Leads"),
         ("company_name", Json.str "X"),
         ("title_areas", Json.arr [Json.str "Y"])] = some (Json.str "X") := rfl
    rw [hl] at hveq
    injection hveq with h
    exact Or.inl ⟨"X", h.symm⟩
  have ht : ∀ v, lookupJ "title_areas"
      [("research_approach", Json.str "Topic Company Leads"),
       ("company_name", Json.str "X"),
       ("title_areas", Json.arr [Json.str "Y"])] = some v →
      (∃ ts, v = Json.arr ts) ∨ v = Json.null := by
    intro v hveq
    have hl : lookupJ "title_areas"
        [("research_approach", Json.str "Topic Company Leads"),
         ("company_name", Json.str "X"),
         ("title_areas", Json.arr [Json.str "Y"])] = some (Json.arr [Json.str "Y"]) := rfl
    rw [hl] at hveq
    injection hveq with h
    exact Or.inl ⟨[Json.str "Y"], h.symm⟩
  exact (C2_approach_router _ hc ht).1.mpr
    ⟨rfl, ⟨"X", rfl, by decide⟩, ⟨[Json.str "Y"], rfl, by simp⟩⟩

/-! ### C10: the CSE query shape -/

theorem intercalate_go_append (s : String) (as : List String) :
    ∀ (acc₁ acc₂ : String),
      String.intercalate.go (acc₁ ++ acc₂) s as = acc₁ ++ String.intercalate.go acc₂ s as := by
  induction as with
  | nil =>
    intro acc₁ acc₂
    rfl
  | cons a as ih =>
    intro acc₁ acc₂
    show String.intercalate.go (acc₁ ++ acc₂ ++ s ++ a) s as = _
    have hassoc : acc₁ ++ acc₂ ++ s ++ a = acc₁ ++ (acc₂ ++ s ++ a) := by
      simp [String.append_assoc]
    rw [hassoc, ih]
    rfl

theorem orJoin_intercalate (ts : List String) :
    String.intercalate " OR " (ts.map (fun t => "\"" ++ t ++ "\"")) = orJoinSpec ts := by
  induction ts with
  | nil => rfl
  | cons t rest ih =>
    cases rest with
    | nil => rfl
    | cons t2 ts2 =>
      calc String.intercalate " OR "
            ((t :: t2 :: ts2).map (fun x => "\"" ++ x ++ "\""))
          = ("\"" ++ t ++ "\"" ++ " OR ") ++
              String.intercalate " OR " ((t2 :: ts2).map (fun x => "\"" ++ x ++ "\"")) :=
            intercalate_go_append " OR "
              (ts2.map (fun x => "\"" ++ x ++ "\"")) ("\"" ++ t ++ "\"" ++ " OR ")
              ("\"" ++ t2 ++ "\"")
        _ = ("\"" ++ t ++ "\"" ++ " OR ") ++ orJoinSpec (t2 :: ts2) := by rw [ih]
        _ = orJoinSpec (t :: t2 :: ts2) := rfl

/-- Claim C10: `build_linkedin_cse_query` returns exactly
`site:linkedin.com/in ("c") ("t1" OR ... OR "tn")`, each title
double-quoted and joined by `" OR "`; for an empty title list the second
group degenerates to `()`. -/
theorem C10_cse_query_shape (company_name : String) (title_areas : List String) :
    build_linkedin_cse_query company_name title_areas =
      "site:linkedin.com/in (\"" ++ company_name ++ "\") (" ++
        orJoinSpec title_areas ++ ")" ∧
    build_linkedin_cse_query company_name [] =
      "site:linkedin.com/in (\"" ++ company_name ++ "\") ()" := by
  constructor
  · simp only [build_linkedin_cse_query]
    rw [orJoin_intercalate]
    simp [String.append_assoc]
    rw [← String.append_assoc "site:linkedin.com/in ("]
    rfl
  · simp only [build_linkedin_cse_query, String.intercalate, List.map]
    simp [String.append_assoc]
    rw [← String.append_assoc "site:linkedin.com/in ("]
    rfl

/-! ### C3: the state-merge invariant -/

/-- Claim C3: merging a Step's partial update is a key-wise overwrite —
keys absent from the update keep their state value, keys of the update
take the update's value, `{a:1,b:2}` merged with `{b:3,c:4}` yields
`{a:1,b:3,c:4}`, and over the course of any executed run a field once
present is never deleted, only possibly overwritten. -/
theorem C3_state_merge (s u : StateMap) :
    (∀ k, k ∉ keysOf u → lookupJ k (mergeState s u) = lookupJ k s) ∧
    ((keysOf u).Nodup → ∀ k v, (k, v) ∈ u → lookupJ k (mergeState s u) = some v) ∧
    (∀ k, (lookupJ k s).isSome → (lookupJ k (mergeState s u)).isSome) ∧
    (mergeState [("a", Json.num 1), ("b", Json.num 2)]
        [("b", Json.num 3), ("c", Json.num 4)] =
      [("a", Json.num 1), ("b", Json.num 3), ("c", Json.num 4)]) ∧
    (∀ (ν : Type) (g : GraphModel ν) (fuel : Nat) (n : ν) (s₀ sf : StateMap)
       (tr : List ν) (k : String),
      execFrom g fuel n s₀ = ExecResult.done sf tr →
      (lookupJ k s₀).isSome → (lookupJ k sf).isSome) := by
  refine ⟨?_, ?_, ?_, rfl, ?_⟩
  · intro k hk
    exact lookupJ_mergeState_not_mem s u k hk
  · intro hnd k v hm
    exact lookupJ_mergeState_mem s u k v hnd hm
  · intro k h
    exact lookupJ_mergeState_isSome s u k h
  · intro ν g fuel n s₀ sf tr k hrun h
    exact execFrom_preserves_isSome g fuel n s₀ sf tr k hrun h

/-- Witness for C3: the merge conjuncts evaluated on the spec's example
maps, and the run-preservation conjunct on a concrete one-step run that
overwrites nothing. -/
theorem C3_state_merge_witness :
    lookupJ "a" (mergeState [("a", Json.num 1), ("b", Json.num 2)]
      [("b", Json.num 3), ("c", Json.num 4)]) = some (Json.num 1) ∧
    lookupJ "b" (mergeState [("a", Json.num 1), ("b", Json.num 2)]
      [("b", Json.num 3), ("c", Json.num 4)]) = some (Json.num 3) ∧
    (lookupJ "k0" [("k0", Json.null)]).isSome = true := by
  refine ⟨?_, ?_, ?_⟩
  · exact (C3_state_merge [("a", Json.num 1), ("b", Json.num 2)]
      [("b", Json.num 3), ("c", Json.num 4)]).1 "a" (by simp [keysOf])
  · exact (C3_state_merge [("a", Json.num 1), ("b", Json.num 2)]
      [("b", Json.num 3), ("c", Json.num 4)]).2.1 (by simp [keysOf]) "b" (Json.num 3)
      (by simp)
  · have h := (C3_state_merge [] []).2.2.2.2 Unit singleStepGraph 1 () [("k0", Json.null)]
      [("k0", Json.null), ("w", Json.num 5)] [()] "k0" rfl rfl
    exact rfl

/-! ### C5: the storage-unconfigured fallback -/

/-- Counterexample for claim C5: with storage unconfigured,
`create_podcast_discussion` returns `None` in the URL slot — a silent
`None` result, not the raw content — so the claim, which asserts a raw
content fallback and "never a None result" for both upload sites, is
false at this concrete input. -/
theorem C5_storage_fallback_counterexample :
    ¬ claimC5 ∧
    create_podcast_discussion (Except.ok "SCRIPT") (Except.ok ()) none (Except.ok "URL") =
      Except.ok ("SCRIPT", Json.null) := by
  refine ⟨?_, rfl⟩
  intro h
  exact h.2 "SCRIPT" none (Except.ok "URL") ("SCRIPT", Json.null) rfl rfl rfl

/-- Claim C5 as amended: with storage unconfigured the report step falls
back to returning the raw report content — the exact string the
configured path would upload — in place of the URL (and also falls back
to it when a configured upload raises); the podcast step instead returns
the script together with a `None` URL slot. -/
theorem C5_storage_fallback (a : ReportArgs) (st script : String)
    (bucket : Option String) (upload : String → Except PyExn String)
    (uploadP : Except PyExn String) :
    (envSet bucket = false →
      create_research_report a (Except.ok st) bucket upload =
        Except.ok (reportContent a st, st)) ∧
    (∀ url, envSet bucket = true → upload (reportContent a st) = Except.ok url →
      create_research_report a (Except.ok st) bucket upload = Except.ok (url, st)) ∧
    (∀ e, envSet bucket = true → upload (reportContent a st) = Except.error e →
      create_research_report a (Except.ok st) bucket upload =
        Except.ok (reportContent a st, st)) ∧
    (envSet bucket = false →
      create_podcast_discussion (Except.ok script) (Except.ok ()) bucket uploadP =
        Except.ok (script, Json.null)) := by
  refine ⟨?_, ?_, ?_, ?_⟩
  · intro h
    simp [create_research_report, h]
  · intro url h hup
    simp [create_research_report, h, hup]
  · intro e h hup
    simp [create_research_report, h, hup]
  · intro h
    simp [create_podcast_discussion, h]

/-- Witness for the amended C5 at concrete inputs: unconfigured storage
yields the raw report content and the `(script, None)` podcast pair;
configured storage yields the signed URL. -/
theorem C5_storage_fallback_witness :
    create_research_report
        ⟨Json.str "T", Json.str "Topic Only", .null, .null, .null, .null, .null,
         .null, .null, .null, .null⟩
        (Except.ok "SYN") none (fun _ => Except.ok "URL") =
      Except.ok (reportContent
        ⟨Json.str "T", Json.str "Topic Only", .null, .null, .null, .null, .null,
         .null, .null, .null, .null⟩ "SYN", "SYN") ∧
    create_research_report
        ⟨Json.str "T", Json.str "Topic Only", .null, .null, .null, .null, .null,
         .null, .null, .null, .null⟩
        (Except.ok "SYN") (some "bucket") (fun _ => Except.ok "URL") =
      Except.ok ("URL", "SYN") ∧
    create_podcast_discussion (Except.ok "S") (Except.ok ()) none (Except.ok "U") =
      Except.ok ("S", Json.null) := by
  refine ⟨?_, ?_, ?_⟩
  · exact (C5_storage_fallback _ "SYN" "S" none (fun _ => Except.ok "URL")
      (Except.ok "U")).1 rfl
  · exact (C5_storage_fallback _ "SYN" "S" (some "bucket") (fun _ => Except.ok "URL")
      (Except.ok "U")).2.1 "URL" rfl rfl
  · exact (C5_storage_fallback
      ⟨Json.str "T", Json.str "Topic Only", .null, .null, .null, .null, .null,
       .null, .null, .null, .null⟩ "SYN" "S" none (fun _ => Except.ok "URL")
      (Except.ok "U")).2.2.2 rfl

/-! ### C1: the two-tier failure model -/

/-- Counterexample for claim C1 at concrete inputs: (a) a state missing
`topic` makes `search_research_node` raise a `KeyError` instead of
returning a degraded update, and (b) the lead pipeline's
`identify_leads_node`, on a state with all three required inputs, raises
the `TypeError` from its two-argument `get_gemini_model` call (made
outside the `try`) instead of propagating the collaborator's own
exception; so the claim as stated is false. -/
theorem C1_two_tier_counterexample :
    ¬ claimC1 ∧
    search_research_node [] okOracles = Except.error (PyExn.keyError "topic") ∧
    LeadAgent.identify_leads_node
      [("company_name", Json.str "C"), ("lead_generation_area", Json.str "A"),
       ("titles", Json.arr [Json.str "T"])] failingLeadOracles =
      Except.error (PyExn.other
        "get_gemini_model() takes 1 positional argument but 2 were given") := by
  refine ⟨?_, rfl, rfl⟩
  intro h
  obtain ⟨u, hu⟩ := h.1.1 okOracles [] rfl
  rw [show search_research_node [] okOracles =
      Except.error (PyExn.keyError "topic") from rfl] at hu
  cases hu

/-- Claim C1 as amended: the soft-failure tier applies only to the
Variant A fields read with guarded `state.get` (`company_name`,
`title_areas`, `video_url`): there a falsy/missing value yields a
sentinel or empty-list ok-update without raising. A missing
directly-subscripted field (`topic`, `research_approach` in Variant A;
`company_name`, `lead_generation_area`, `titles` in Variant B) raises a
`KeyError`. Exceptions from the Variant A LLM collaborator calls
propagate uncaught, while exceptions from the storage-upload calls and
the CSE search request are caught and produce degraded ok-updates. The
Variant B nodes never reach their Gemini calls at all: once their
subscripts succeed they raise the uncaught `TypeError` of the
two-argument `get_gemini_model` call made outside the `try`, so their
`except Exception` degraded paths are dead code. -/
theorem C1_two_tier_amended :
    (∀ o s, lookupJ "topic" s = none →
      search_research_node s o = Except.error (PyExn.keyError "topic")) ∧
    (∀ o s, lookupJ "topic" s = none →
      company_topic_research_node s o = Except.error (PyExn.keyError "topic")) ∧
    (∀ o s v, lookupJ "topic" s = some v →
      truthyOpt (lookupJ "company_name" s) = false →
      company_topic_research_node s o =
        Except.ok [("company_specific_topic_research_text",
                     Json.str "Error: Company name required."),
                   ("company_info_text", Json.str "Error: Company name required.")]) ∧
    (∀ o s, truthyOpt (lookupJ "company_name" s) = false ∨
        truthyOpt (lookupJ "title_areas" s) = false →
      identify_leads_node s o =
        Except.ok [("identified_leads_data", Json.arr []),
                   ("identified_leads", Json.arr [])]) ∧
    (∀ o s, truthyOpt (lookupJ "company_name" s) = false ∨
        truthyOpt (lookupJ "title_areas" s) = false →
      search_linkedin_via_cse_node s o =
        Except.ok [("linkedin_cse_contacts", Json.arr [])]) ∧
    (∀ o s v, lookupJ "topic" s = some v →
      truthyOpt (lookupJ "video_url" s) = false →
      analyze_video_node s o =
        Except.ok [("video_text", Json.str "No video provided for analysis.")]) ∧
    (∀ o s e v, lookupJ "topic" s = some v → o.searchLLM = Except.error e →
      search_research_node s o = Except.error e) ∧
    (∀ o s e v, lookupJ "topic" s = some v →
      truthyOpt (lookupJ "company_name" s) = true →
      o.companyLLM = Except.error e →
      company_topic_research_node s o = Except.error e) ∧
    (∀ o s e, truthyOpt (lookupJ "company_name" s) = true →
      truthyOpt (lookupJ "title_areas" s) = true →
      o.leadsLLM = Except.error e → identify_leads_node s o = Except.error e) ∧
    (∀ o s e v, lookupJ "topic" s = some v →
      truthyOpt (lookupJ "video_url" s) = true →
      o.videoLLM = Except.error e → analyze_video_node s o = Except.error e) ∧
    (∀ o s e v w, lookupJ "topic" s = some v →
      lookupJ "research_approach" s = some w →
      o.synthesisLLM = Except.error e → create_report_node s o = Except.error e) ∧
    (∀ o s e v w, lookupJ "topic" s = some v →
      lookupJ "research_approach" s = some w →
      o.podcastScriptLLM = Except.error e → create_podcast_node s o = Except.error e) ∧
    (∀ o s e v w st, lookupJ "topic" s = some v →
      lookupJ "research_approach" s = some w →
      o.synthesisLLM = Except.ok st → envSet o.gcsBucket = true →
      (∀ c, o.uploadReport c = Except.error e) →
      ∃ u, create_report_node s o = Except.ok u) ∧
    (∀ o s e, truthyOpt (lookupJ "company_name" s) = true →
      truthyOpt (lookupJ "title_areas" s) = true →
      envSet o.cseApiKey = true → envSet o.cseId = true →
      o.cseRequest = Except.error e →
      search_linkedin_via_cse_node s o =
        Except.ok [("linkedin_cse_contacts", Json.arr [])]) ∧
    (∀ o s, lookupJ "company_name" s = none →
      LeadAgent.identify_leads_node s o = Except.error (PyExn.keyError "company_name")) ∧
    (∀ o s v1 v2 v3, lookupJ "company_name" s = some v1 →
      lookupJ "lead_generation_area" s = some v2 → lookupJ "titles" s = some v3 →
      LeadAgent.identify_leads_node s o =
        Except.error (PyExn.other
          "get_gemini_model() takes 1 positional argument but 2 were given")) ∧
    (∀ o s v1 v2 v3, lookupJ "company_name" s = some v1 →
      lookupJ "lead_generation_area" s = some v2 → lookupJ "titles" s = some v3 →
      LeadAgent.create_summary_report_node s o =
        Except.error (PyExn.other
          "get_gemini_model() takes 1 positional argument but 2 were given")) ∧
    (∀ o s e v w script, lookupJ "topic" s = some v →
      lookupJ "research_approach" s = some w →
      o.podcastScriptLLM = Except.ok script → o.podcastTTS = Except.ok () →
      envSet o.gcsBucket = true → o.uploadPodcast = Except.error e →
      create_podcast_node s o =
        Except.ok [("podcast_script", Json.str script),
                   ("podcast_url", Json.null)]) := by
  refine ⟨?_, ?_, ?_, ?_, ?_, ?_, ?_, ?_, ?_, ?_, ?_, ?_, ?_, ?_, ?_, ?_, ?_, ?_⟩
  · intro o s h
    simp [search_research_node, subscript, h, Bind.bind, Except.bind]
  · intro o s h
    simp [company_topic_research_node, subscript, h, Bind.bind, Except.bind]
  · intro o s v h hc
    simp [company_topic_research_node, subscript, h, hc, Bind.bind, Except.bind]
  · intro o s h
    rcases h with h | h <;> simp [identify_leads_node, h]
  · intro o s h
    rcases h with h | h <;> simp [search_linkedin_via_cse_node, h]
  · intro o s v h hv
    simp [analyze_video_node, subscript, h, hv, Bind.bind, Except.bind]
  · intro o s e v h ho
    simp [search_research_node, subscript, h, ho, Bind.bind, Except.bind]
  · intro o s e v h hc ho
    simp [company_topic_research_node, subscript, h, hc, ho, Bind.bind, Except.bind]
  · intro o s e hc ht ho
    simp [identify_leads_node, hc, ht, ho]
  · intro o s e v h hv ho
    simp [analyze_video_node, subscript, h, hv, ho, Bind.bind, Except.bind]
  · intro o s e v w h hw ho
    simp [create_report_node, create_research_report, subscript, h, hw, ho,
      Bind.bind, Except.bind]
  · intro o s e v w h hw ho
    simp [create_podcast_node, create_podcast_discussion, subscript, h, hw, ho,
      Bind.bind, Except.bind]
  · intro o s e v w st h hw hsyn hb hup
    simp only [create_report_node, create_research_report, subscript, h, hw, hsyn, hb,
      hup, Bind.bind, Except.bind]
    exact ⟨_, rfl⟩
  · intro o s e hc ht hk hi hr
    simp [search_linkedin_via_cse_node, fetch_linkedin_contacts_via_cse, hc, ht, hk,
      hi, hr]
  · intro o s h
    simp [LeadAgent.identify_leads_node, subscript, h, Bind.bind, Except.bind]
  · intro o s v1 v2 v3 h1 h2 h3
    simp [LeadAgent.identify_leads_node, LeadAgent.get_gemini_model_call,
      subscript, h1, h2, h3, Bind.bind, Except.bind]
  · intro o s v1 v2 v3 h1 h2 h3
    simp [LeadAgent.create_summary_report_node, LeadAgent.get_gemini_model_call,
      subscript, h1, h2, h3, Bind.bind, Except.bind]
  · intro o s e v w script h hw hs htts hb hup
    simp [create_podcast_node, create_podcast_discussion, subscript, h, hw, hs, htts,
      hb, hup, Bind.bind, Except.bind]

/-- Witness for the amended C1 at concrete inputs: the sentinel update of
the company-research step on a state with `topic` but no company, the
`KeyError` of the search step on an empty state, the propagation of a
search-LLM failure, and the lead pipeline's unconditional `TypeError`
from the two-argument `get_gemini_model` call once its inputs are
present. -/
theorem C1_two_tier_amended_witness :
    company_topic_research_node [("topic", Json.str "T")] okOracles =
      Except.ok [("company_specific_topic_research_text",
                   Json.str "Error: Company name required."),
                 ("company_info_text", Json.str "Error: Company name required.")] ∧
    search_research_node [] okOracles = Except.error (PyExn.keyError "topic") ∧
    search_research_node [("topic", Json.str "T")] downOracles =
      Except.error (PyExn.other "down") ∧
    LeadAgent.identify_leads_node
      [("company_name", Json.str "C"), ("lead_generation_area", Json.str "A"),
       ("titles", Json.arr [Json.str "T"])] failingLeadOracles =
      Except.error (PyExn.other
        "get_gemini_model() takes 1 positional argument but 2 were given") := by
  refine ⟨?_, ?_, ?_, ?_⟩
  · exact C1_two_tier_amended.2.2.1 okOracles [("topic", Json.str "T")]
      (Json.str "T") rfl rfl
  · exact C1_two_tier_amended.1 okOracles [] rfl
  · exact C1_two_tier_amended.2.2.2.2.2.2.1 downOracles [("topic", Json.str "T")]
      (PyExn.other "down") (Json.str "T") rfl rfl
  · exact C1_two_tier_amended.2.2.2.2.2.2.2.2.2.2.2.2.2.2.2.1 failingLeadOracles
      [("company_name", Json.str "C"), ("lead_generation_area", Json.str "A"),
       ("titles", Json.arr [Json.str "T"])]
      (Json.str "C") (Json.str "A") (Json.arr [Json.str "T"]) rfl rfl rfl

/-! ### C9: totality and block selection of the lead parser -/

theorem beginsWith_append (pat r : List Char) : beginsWith pat (pat ++ r) = true := by
  induction pat with
  | nil => rfl
  | cons c cs ih => simp [beginsWith, ih]

theorem findSub_of_first (pat : List Char) :
    ∀ (s : List Char) (k : Nat), beginsWith pat (s.drop k) = true →
      (∀ j, j < k → beginsWith pat (s.drop j) = false) →
      findSub pat s = some k := by
  intro s
  induction s with
  | nil =>
    intro k hk hlt
    cases k with
    | zero =>
      simp only [List.drop_nil] at hk
      simp [findSub, hk]
    | succ k =>
      exfalso
      have h0 := hlt 0 (Nat.succ_pos k)
      simp only [List.drop_nil] at hk h0
      rw [hk] at h0
      cases h0
  | cons c t ih =>
    intro k hk hlt
    cases k with
    | zero =>
      simp only [List.drop_zero] at hk
      simp [findSub, hk]
    | succ k =>
      have h0 : beginsWith pat (c :: t) = false := by
        simpa using hlt 0 (Nat.succ_pos k)
      have hk' : beginsWith pat (t.drop k) = true := by
        simpa [List.drop_succ_cons] using hk
      have hlt' : ∀ j, j < k → beginsWith pat (t.drop j) = false := by
        intro j hj
        simpa [List.drop_succ_cons] using hlt (j + 1) (Nat.succ_lt_succ hj)
      simp [findSub, h0, ih k hk' hlt']

theorem findSub_none (pat : List Char) :
    ∀ s : List Char, (∀ j, beginsWith pat (s.drop j) = false) → findSub pat s = none := by
  intro s
  induction s with
  | nil =>
    intro h
    have h0 : beginsWith pat [] = false := by simpa using h 0
    simp [findSub, h0]
  | cons c t ih =>
    intro h
    have h0 : beginsWith pat (c :: t) = false := by simpa using h 0
    have ht : ∀ j, beginsWith pat (t.drop j) = false := fun j => by
      simpa [List.drop_succ_cons] using h (j + 1)
    simp [findSub, h0, ih ht]

theorem trimChars_cons_space (c : Char) (l : List Char) (h : isPySpace c = true) :
    trimChars (c :: l) = trimChars l := by
  simp [trimChars, List.dropWhile_cons, h]

/-- The selection computation after the start marker has been located at
`i` and the skip-adjusted content start `cs` established: with the text
from `cs` decomposing as `mid2` followed by the first closing fence, the
selected string is the stripped `mid2` if it looks like JSON and the
whole text otherwise. -/
theorem chooseJsonStr_after (t mid2 post : List Char) (i cs : Nat)
    (hfind1 : findSub jsonBlockStartMarker t = some i)
    (hcs : (if ((t.drop (i + jsonBlockStartMarker.length)).head? == some '\n') = true
        then i + jsonBlockStartMarker.length + 1
        else i + jsonBlockStartMarker.length) = cs)
    (hdrop : t.drop cs = mid2 ++ (jsonBlockEndMarker ++ post))
    (hnoe : ∀ j, j < mid2.length →
      beginsWith jsonBlockEndMarker ((mid2 ++ (jsonBlockEndMarker ++ post)).drop j) = false) :
    chooseJsonStr t =
      (if looksLikeJson (trimChars mid2) = true then trimChars mid2 else t) := by
  have hfind2 : findSub jsonBlockEndMarker (mid2 ++ (jsonBlockEndMarker ++ post)) =
      some mid2.length := by
    apply findSub_of_first
    · rw [List.drop_left]
      exact beginsWith_append _ _
    · exact hnoe
  unfold chooseJsonStr
  rw [hfind1]
  simp only [findSubFrom, hcs, hdrop, hfind2, Option.map, Nat.add_sub_cancel,
    List.take_left]

/-- Block selection: when the text contains a first ```` ```json ````
marker and a first closing fence after it, the selected string is the
stripped in-between content (after the optional newline skip) if that
content looks like JSON, and the whole text otherwise. -/
theorem chooseJsonStr_block (pre mid post : List Char)
    (hpre : ∀ j, j < pre.length →
      beginsWith jsonBlockStartMarker
        ((pre ++ (jsonBlockStartMarker ++ (mid ++ (jsonBlockEndMarker ++ post)))).drop j)
        = false)
    (hmid : ∀ j, j < mid.length →
      beginsWith jsonBlockEndMarker ((mid ++ (jsonBlockEndMarker ++ post)).drop j) = false) :
    chooseJsonStr (pre ++ (jsonBlockStartMarker ++ (mid ++ (jsonBlockEndMarker ++ post)))) =
      (if looksLikeJson (trimChars mid) = true then trimChars mid
       else pre ++ (jsonBlockStartMarker ++ (mid ++ (jsonBlockEndMarker ++ post)))) := by
  have hdropPre :
      (pre ++ (jsonBlockStartMarker ++ (mid ++ (jsonBlockEndMarker ++ post)))).drop
        pre.length = jsonBlockStartMarker ++ (mid ++ (jsonBlockEndMarker ++ post)) :=
    List.drop_left pre _
  have hfind1 :
      findSub jsonBlockStartMarker
        (pre ++ (jsonBlockStartMarker ++ (mid ++ (jsonBlockEndMarker ++ post)))) =
        some pre.length := by
    apply findSub_of_first
    · rw [hdropPre]
      exact beginsWith_append _ _
    · exact hpre
  have hdrop0 :
      (pre ++ (jsonBlockStartMarker ++ (mid ++ (jsonBlockEndMarker ++ post)))).drop
        (pre.length + jsonBlockStartMarker.length) =
        mid ++ (jsonBlockEndMarker ++ post) := by
    rw [← List.drop_drop, hdropPre, List.drop_left]
  rcases mid with _ | ⟨c, mid'⟩
  · exact chooseJsonStr_after _ [] post pre.length
      (pre.length + jsonBlockStartMarker.length) hfind1 (by rw [hdrop0]; rfl) hdrop0 hmid
  · by_cases hc : c = '\n'
    · subst hc
      have hdrop1 :
          (pre ++ (jsonBlockStartMarker ++
            (('\n' :: mid') ++ (jsonBlockEndMarker ++ post)))).drop
            (pre.length + jsonBlockStartMarker.length + 1) =
            mid' ++ (jsonBlockEndMarker ++ post) := by
        rw [← List.drop_drop, hdrop0]
        rfl
      have hnoe : ∀ j, j < mid'.length →
          beginsWith jsonBlockEndMarker
            ((mid' ++ (jsonBlockEndMarker ++ post)).drop j) = false := by
        intro j hj
        have h := hmid (j + 1) (by simpa using Nat.succ_lt_succ hj)
        simpa [List.cons_append, List.drop_succ_cons] using h
      have h := chooseJsonStr_after _ mid' post pre.length
        (pre.length + jsonBlockStartMarker.length + 1) hfind1
        (by rw [hdrop0]; rfl) hdrop1 hnoe
      rw [h, trimChars_cons_space '\n' mid' (by decide)]
    · have hhead : ((some c == some '\n')) = false := by
        rw [show ((some c == some '\n')) = (c == '\n') from rfl]
        exact beq_eq_false_iff_ne.mpr hc
      exact chooseJsonStr_after _ (c :: mid') post pre.length
        (pre.length + jsonBlockStartMarker.length) hfind1
        (by rw [hdrop0]; simp [hhead]) hdrop0 hmid

/-- With no ```` ```json ```` marker anywhere, the whole text is selected. -/
theorem chooseJsonStr_no_marker (t : List Char)
    (h : ∀ j, beginsWith jsonBlockStartMarker (t.drop j) = false) :
    chooseJsonStr t = t := by
  unfold chooseJsonStr
  rw [findSub_none _ _ h]

/-- With a ```` ```json ```` marker but no closing fence after it, the
whole text is selected. -/
theorem chooseJsonStr_unclosed (pre mid : List Char)
    (hpre : ∀ j, j < pre.length →
      beginsWith jsonBlockStartMarker ((pre ++ (jsonBlockStartMarker ++ mid)).drop j) = false)
    (hnoe : ∀ j, beginsWith jsonBlockEndMarker (mid.drop j) = false) :
    chooseJsonStr (pre ++ (jsonBlockStartMarker ++ mid)) =
      pre ++ (jsonBlockStartMarker ++ mid) := by
  have hdropPre := List.drop_left pre (jsonBlockStartMarker ++ mid)
  have hfind1 : findSub jsonBlockStartMarker (pre ++ (jsonBlockStartMarker ++ mid)) =
      some pre.length := by
    apply findSub_of_first
    · rw [hdropPre]
      exact beginsWith_append _ _
    · exact hpre
  have hdrop0 : (pre ++ (jsonBlockStartMarker ++ mid)).drop
      (pre.length + jsonBlockStartMarker.length) = mid := by
    rw [← List.drop_drop, hdropPre, List.drop_left]
  have hfindE0 : findSub jsonBlockEndMarker mid = none := findSub_none _ _ hnoe
  have hfindE1 : findSub jsonBlockEndMarker (mid.drop 1) = none := by
    apply findSub_none
    intro j
    rw [List.drop_drop]
    exact hnoe (1 + j)
  have hdrop1 : (pre ++ (jsonBlockStartMarker ++ mid)).drop
      (pre.length + jsonBlockStartMarker.length + 1) = mid.drop 1 := by
    rw [← List.drop_drop, hdrop0]
  unfold chooseJsonStr
  rw [hfind1]
  by_cases hh : ((mid.head? == some '\n') = true)
  · simp only [findSubFrom, hdrop0, hh, if_true, hdrop1, hfindE1, Option.map]
  · have hh' : (mid.head? == some '\n') = false := Bool.eq_false_iff.mpr hh
    simp only [findSubFrom, hdrop0, hh', Bool.false_eq_true, if_false, hfindE0,
      Option.map]

/-- Claim C9: `parse_leads_from_gemini_response` always returns a list and
never raises; the string parsed is the first closed ```` ```json ````
fenced block when its stripped content has matching outer brackets, and
the whole stripped text otherwise (no marker, no closing fence, or a
failed bracket check); an unrecognized response shape, a decode failure,
or a successful parse to a non-list value all yield `[]`. -/
theorem C9_parse_leads_totality :
    (∀ r jl, respRawText r = none → parse_leads_from_gemini_response r jl = []) ∧
    (∀ r jl raw xs, respRawText r = some raw →
      jl (String.mk (chooseJsonStr (trimChars raw.data))) = some (Json.arr xs) →
      parse_leads_from_gemini_response r jl = xs) ∧
    (∀ r jl raw v, respRawText r = some raw →
      jl (String.mk (chooseJsonStr (trimChars raw.data))) = some v →
      (∀ xs, v ≠ Json.arr xs) → parse_leads_from_gemini_response r jl = []) ∧
    (∀ r jl raw, respRawText r = some raw →
      jl (String.mk (chooseJsonStr (trimChars raw.data))) = none →
      parse_leads_from_gemini_response r jl = []) ∧
    (∀ pre mid post,
      (∀ j, j < pre.length →
        beginsWith jsonBlockStartMarker
          ((pre ++ (jsonBlockStartMarker ++ (mid ++ (jsonBlockEndMarker ++ post)))).drop j)
          = false) →
      (∀ j, j < mid.length →
        beginsWith jsonBlockEndMarker ((mid ++ (jsonBlockEndMarker ++ post)).drop j)
          = false) →
      looksLikeJson (trimChars mid) = true →
      chooseJsonStr (pre ++ (jsonBlockStartMarker ++ (mid ++ (jsonBlockEndMarker ++ post))))
        = trimChars mid) ∧
    (∀ pre mid post,
      (∀ j, j < pre.length →
        beginsWith jsonBlockStartMarker
          ((pre ++ (jsonBlockStartMarker ++ (mid ++ (jsonBlockEndMarker ++ post)))).drop j)
          = false) →
      (∀ j, j < mid.length →
        beginsWith jsonBlockEndMarker ((mid ++ (jsonBlockEndMarker ++ post)).drop j)
          = false) →
      looksLikeJson (trimChars mid) = false →
      chooseJsonStr (pre ++ (jsonBlockStartMarker ++ (mid ++ (jsonBlockEndMarker ++ post))))
        = pre ++ (jsonBlockStartMarker ++ (mid ++ (jsonBlockEndMarker ++ post)))) ∧
    (∀ pre mid,
      (∀ j, j < pre.length →
        beginsWith jsonBlockStartMarker
          ((pre ++ (jsonBlockStartMarker ++ mid)).drop j) = false) →
      (∀ j, beginsWith jsonBlockEndMarker (mid.drop j) = false) →
      chooseJsonStr (pre ++ (jsonBlockStartMarker ++ mid)) =
        pre ++ (jsonBlockStartMarker ++ mid)) ∧
    (∀ t, (∀ j, beginsWith jsonBlockStartMarker (t.drop j) = false) →
      chooseJsonStr t = t) := by
  refine ⟨?_, ?_, ?_, ?_, ?_, ?_, ?_, ?_⟩
  · intro r jl h
    simp [parse_leads_from_gemini_response, h]
  · intro r jl raw xs h hjl
    simp [parse_leads_from_gemini_response, h, hjl]
  · intro r jl raw v h hjl hne
    cases v with
    | arr xs => exact absurd rfl (hne xs)
    | null => simp [parse_leads_from_gemini_response, h, hjl]
    | bool b => simp [parse_leads_from_gemini_response, h, hjl]
    | num n => simp [parse_leads_from_gemini_response, h, hjl]
    | str s => simp [parse_leads_from_gemini_response, h, hjl]
    | obj fs => simp [parse_leads_from_gemini_response, h, hjl]
  · intro r jl raw h hjl
    simp [parse_leads_from_gemini_response, h, hjl]
  · intro pre mid post hpre hmid hlooks
    rw [chooseJsonStr_block pre mid post hpre hmid, if_pos hlooks]
  · intro pre mid post hpre hmid hlooks
    rw [chooseJsonStr_block pre mid post hpre hmid, if_neg]
    rw [hlooks]
    exact Bool.false_ne_true
  · intro pre mid hpre hnoe
    exact chooseJsonStr_unclosed pre mid hpre hnoe
  · intro t h
    exact chooseJsonStr_no_marker t h

/-- Witness for C9 on a concrete response: the text
`a```json\n[1, 2]``` z` selects the fenced `[1, 2]`, and with a decoder
that parses it to a two-element list the parser returns that list. -/
theorem C9_parse_leads_totality_witness :
    parse_leads_from_gemini_response
      ⟨some "a```json\n[1, 2]``` z", []⟩
      (fun s => if s = "[1, 2]" then some (Json.arr [Json.num 1, Json.num 2]) else none) =
      [Json.num 1, Json.num 2] ∧
    chooseJsonStr ("a```json\n[1, 2]``` z".toList) = "[1, 2]".toList := by
  constructor
  · exact C9_parse_leads_totality.2.1
      ⟨some "a```json\n[1, 2]``` z", []⟩
      (fun s => if s = "[1, 2]" then some (Json.arr [Json.num 1, Json.num 2]) else none)
      "a```json\n[1, 2]``` z" [Json.num 1, Json.num 2] rfl rfl
  · exact C9_parse_leads_totality.2.2.2.2.1 "a".toList "\n[1, 2]".toList " z".toList
      (by decide) (by decide) (by decide)

/-! ### C4: termination of the Variant A topology -/

/-- Collaborator-independent effects: every node invocation returns some
ok-update. -/
def EffectsTotal (effects : NodeName → StateMap → Except PyExn StateMap) : Prop :=
  ∀ n s, ∃ u, effects n s = Except.ok u

theorem execFromA_create_podcast (effects : NodeName → StateMap → Except PyExn StateMap)
    (fuel : Nat) (s : StateMap) (h : 1 ≤ fuel) :
    execFrom (variantA effects) fuel NodeName.create_podcast s ≠
      ExecResult.stepLimitExceeded ∧
    (∀ sf tr, execFrom (variantA effects) fuel NodeName.create_podcast s =
      ExecResult.done sf tr → tr = [NodeName.create_podcast]) ∧
    (EffectsTotal effects → ∃ sf tr,
      execFrom (variantA effects) fuel NodeName.create_podcast s =
        ExecResult.done sf tr) := by
  obtain ⟨f, rfl⟩ : ∃ f, fuel = f + 1 := ⟨fuel - 1, by omega⟩
  simp only [execFrom]
  cases hstep : (variantA effects).step NodeName.create_podcast s with
  | error e =>
    refine ⟨by simp, by simp, ?_⟩
    intro heff
    obtain ⟨u, hu⟩ := heff NodeName.create_podcast s
    rw [show (variantA effects).step = effects from rfl] at hstep
    rw [hu] at hstep
    cases hstep
  | ok u =>
    simp only [show (variantA effects).next = variantANext from rfl, variantANext]
    exact ⟨by simp, fun sf tr htr => by cases htr; rfl, fun _ => ⟨_, _, rfl⟩⟩

theorem execFromA_create_report (effects : NodeName → StateMap → Except PyExn StateMap)
    (fuel : Nat) (s : StateMap) (h : 2 ≤ fuel) :
    execFrom (variantA effects) fuel NodeName.create_report s ≠
      ExecResult.stepLimitExceeded ∧
    (∀ sf tr, execFrom (variantA effects) fuel NodeName.create_report s =
      ExecResult.done sf tr →
      tr = [NodeName.create_report] ∨
      tr = [NodeName.create_report, NodeName.create_podcast]) ∧
    (EffectsTotal effects → ∃ sf tr,
      execFrom (variantA effects) fuel NodeName.create_report s =
        ExecResult.done sf tr) := by
  obtain ⟨f, rfl⟩ : ∃ f, fuel = f + 1 := ⟨fuel - 1, by omega⟩
  have hf : 1 ≤ f := by omega
  simp only [execFrom]
  cases hstep : (variantA effects).step NodeName.create_report s with
  | error e =>
    refine ⟨by simp, by simp, ?_⟩
    intro heff
    obtain ⟨u, hu⟩ := heff NodeName.create_report s
    rw [show (variantA effects).step = effects from rfl] at hstep
    rw [hu] at hstep
    cases hstep
  | ok u =>
    simp only [show (variantA effects).next = variantANext from rfl, variantANext]
    obtain ⟨hps, hpd, hpe⟩ := execFromA_create_podcast effects f (mergeState s u) hf
    cases hb : truthy ((lookupJ "create_podcast" (mergeState s u)).getD (.bool false)) with
    | true =>
      simp only [podcastGateNext, should_create_podcast, hb, if_true, beq_self_eq_true]
      cases hrec : execFrom (variantA effects) f NodeName.create_podcast
          (mergeState s u) with
      | done sf2 tr2 =>
        have htr2 := hpd sf2 tr2 hrec
        subst htr2
        exact ⟨by simp, fun sf tr htr => by cases htr; exact Or.inr rfl,
          fun _ => ⟨_, _, rfl⟩⟩
      | stepLimitExceeded => exact absurd hrec hps
      | nodeError e =>
        refine ⟨by simp, by simp, ?_⟩
        intro heff
        obtain ⟨sf, tr, hdone⟩ := hpe heff
        rw [hdone] at hrec
        cases hrec
      | routerLabelError l =>
        refine ⟨by simp, by simp, ?_⟩
        intro heff
        obtain ⟨sf, tr, hdone⟩ := hpe heff
        rw [hdone] at hrec
        cases hrec
    | false =>
      simp only [podcastGateNext, should_create_podcast, hb, Bool.false_eq_true,
        if_false, ENDLabel]
      exact ⟨by simp, fun sf tr htr => by cases htr; exact Or.inl rfl,
        fun _ => ⟨_, _, rfl⟩⟩

theorem execFromA_analyze_video (effects : NodeName → StateMap → Except PyExn StateMap)
    (fuel : Nat) (s : StateMap) (h : 3 ≤ fuel) :
    execFrom (variantA effects) fuel NodeName.analyze_video s ≠
      ExecResult.stepLimitExceeded ∧
    (∀ sf tr, execFrom (variantA effects) fuel NodeName.analyze_video s =
      ExecResult.done sf tr →
      tr = [NodeName.analyze_video, NodeName.create_report] ∨
      tr = [NodeName.analyze_video, NodeName.create_report, NodeName.create_podcast]) ∧
    (EffectsTotal effects → ∃ sf tr,
      execFrom (variantA effects) fuel NodeName.analyze_video s =
        ExecResult.done sf tr) := by
  obtain ⟨f, rfl⟩ : ∃ f, fuel = f + 1 := ⟨fuel - 1, by omega⟩
  have hf : 2 ≤ f := by omega
  simp only [execFrom]
  cases hstep : (variantA effects).step NodeName.analyze_video s with
  | error e =>
    refine ⟨by simp, by simp, ?_⟩
    intro heff
    obtain ⟨u, hu⟩ := heff NodeName.analyze_video s
    rw [show (variantA effects).step = effects from rfl] at hstep
    rw [hu] at hstep
    cases hstep
  | ok u =>
    simp only [show (variantA effects).next = variantANext from rfl, variantANext]
    obtain ⟨hrs, hrd, hre⟩ := execFromA_create_report effects f (mergeState s u) hf
    cases hrec : execFrom (variantA effects) f NodeName.create_report (mergeState s u) with
    | done sf2 tr2 =>
      rcases hrd sf2 tr2 hrec with htr2 | htr2 <;> subst htr2
      · exact ⟨by simp, fun sf tr htr => by cases htr; exact Or.inl rfl,
          fun _ => ⟨_, _, rfl⟩⟩
      · exact ⟨by simp, fun sf tr htr => by cases htr; exact Or.inr rfl,
          fun _ => ⟨_, _, rfl⟩⟩
    | stepLimitExceeded => exact absurd hrec hrs
    | nodeError e =>
      refine ⟨by simp, by simp, ?_⟩
      intro heff
      obtain ⟨sf, tr, hdone⟩ := hre heff
      rw [hdone] at hrec
      cases hrec
    | routerLabelError l =>
      refine ⟨by simp, by simp, ?_⟩
      intro heff
      obtain ⟨sf, tr, hdone⟩ := hre heff
      rw [hdone] at hrec
      cases hrec

theorem execFromA_search_research (effects : NodeName → StateMap → Except PyExn StateMap)
    (fuel : Nat) (s : StateMap) (h : 4 ≤ fuel) :
    execFrom (variantA effects) fuel NodeName.search_research s ≠
      ExecResult.stepLimitExceeded ∧
    (∀ sf tr, execFrom (variantA effects) fuel NodeName.search_research s =
      ExecResult.done sf tr →
      tr = [NodeName.search_research, NodeName.create_report] ∨
      tr = [NodeName.search_research, NodeName.create_report, NodeName.create_podcast] ∨
      tr = [NodeName.search_research, NodeName.analyze_video, NodeName.create_report] ∨
      tr = [NodeName.search_research, NodeName.analyze_video, NodeName.create_report,
            NodeName.create_podcast]) ∧
    (EffectsTotal effects → ∃ sf tr,
      execFrom (variantA effects) fuel NodeName.search_research s =
        ExecResult.done sf tr) := by
  obtain ⟨f, rfl⟩ : ∃ f, fuel = f + 1 := ⟨fuel - 1, by omega⟩
  have hf3 : 3 ≤ f := by omega
  have hf2 : 2 ≤ f := by omega
  simp only [execFrom]
  cases hstep : (variantA effects).step NodeName.search_research s with
  | error e =>
    refine ⟨by simp, by simp, ?_⟩
    intro heff
    obtain ⟨u, hu⟩ := heff NodeName.search_research s
    rw [show (variantA effects).step = effects from rfl] at hstep
    rw [hu] at hstep
    cases hstep
  | ok u =>
    simp only [show (variantA effects).next = variantANext from rfl, variantANext]
    cases hb : truthyOpt (lookupJ "video_url" (mergeState s u)) with
    | true =>
      simp only [videoGateNext, should_analyze_video, hb, if_true, beq_self_eq_true]
      obtain ⟨hvs, hvd, hve⟩ := execFromA_analyze_video effects f (mergeState s u) hf3
      cases hrec : execFrom (variantA effects) f NodeName.analyze_video
          (mergeState s u) with
      | done sf2 tr2 =>
        rcases hvd sf2 tr2 hrec with htr2 | htr2 <;> subst htr2
        · exact ⟨by simp, fun sf tr htr => by cases htr; exact Or.inr (Or.inr (Or.inl rfl)),
            fun _ => ⟨_, _, rfl⟩⟩
        · exact ⟨by simp,
            fun sf tr htr => by cases htr; exact Or.inr (Or.inr (Or.inr rfl)),
            fun _ => ⟨_, _, rfl⟩⟩
      | stepLimitExceeded => exact absurd hrec hvs
      | nodeError e =>
        refine ⟨by simp, by simp, ?_⟩
        intro heff
        obtain ⟨sf, tr, hdone⟩ := hve heff
        rw [hdone] at hrec
        cases hrec
      | routerLabelError l =>
        refine ⟨by simp, by simp, ?_⟩
        intro heff
        obtain ⟨sf, tr, hdone⟩ := hve heff
        rw [hdone] at hrec
        cases hrec
    | false =>
      simp only [videoGateNext, should_analyze_video, hb, Bool.false_eq_true, if_false,
        show (("create_report" : String) == "analyze_video") = false from rfl,
        show (("create_report" : String) == "create_report") = true from rfl, if_true]
      obtain ⟨hrs, hrd, hre⟩ := execFromA_create_report effects f (mergeState s u) hf2
      cases hrec : execFrom (variantA effects) f NodeName.create_report
          (mergeState s u) with
      | done sf2 tr2 =>
        rcases hrd sf2 tr2 hrec with htr2 | htr2 <;> subst htr2
        · exact ⟨by simp, fun sf tr htr => by cases htr; exact Or.inl rfl,
            fun _ => ⟨_, _, rfl⟩⟩
        · exact ⟨by simp, fun sf tr htr => by cases htr; exact Or.inr (Or.inl rfl),
            fun _ => ⟨_, _, rfl⟩⟩
      | stepLimitExceeded => exact absurd hrec hrs
      | nodeError e =>
        refine ⟨by simp, by simp, ?_⟩
        intro heff
        obtain ⟨sf, tr, hdone⟩ := hre heff
        rw [hdone] at hrec
        cases hrec
      | routerLabelError l =>
        refine ⟨by simp, by simp, ?_⟩
        intro heff
        obtain ⟨sf, tr, hdone⟩ := hre heff
        rw [hdone] at hrec
        cases hrec

theorem execFromA_search_linkedin_via_cse (effects : NodeName → StateMap → Except PyExn StateMap)
    (fuel : Nat) (s : StateMap) (h : 4 ≤ fuel) :
    execFrom (variantA effects) fuel NodeName.search_linkedin_via_cse s ≠
      ExecResult.stepLimitExceeded ∧
    (∀ sf tr, execFrom (variantA effects) fuel NodeName.search_linkedin_via_cse s =
      ExecResult.done sf tr →
      tr = [NodeName.search_linkedin_via_cse, NodeName.create_report] ∨
      tr = [NodeName.search_linkedin_via_cse, NodeName.create_report, NodeName.create_podcast] ∨
      tr = [NodeName.search_linkedin_via_cse, NodeName.analyze_video, NodeName.create_report] ∨
      tr = [NodeName.search_linkedin_via_cse, NodeName.analyze_video, NodeName.create_report,
            NodeName.create_podcast]) ∧
    (EffectsTotal effects → ∃ sf tr,
      execFrom (variantA effects) fuel NodeName.search_linkedin_via_cse s =
        ExecResult.done sf tr) := by
  obtain ⟨f, rfl⟩ : ∃ f, fuel = f + 1 := ⟨fuel - 1, by omega⟩
  have hf3 : 3 ≤ f := by omega
  have hf2 : 2 ≤ f := by omega
  simp only [execFrom]
  cases hstep : (variantA effects).step NodeName.search_linkedin_via_cse s with
  | error e =>
    refine ⟨by simp, by simp, ?_⟩
    intro heff
    obtain ⟨u, hu⟩ := heff NodeName.search_linkedin_via_cse s
    rw [show (variantA effects).step = effects from rfl] at hstep
    rw [hu] at hstep
    cases hstep
  | ok u =>
    simp only [show (variantA effects).next = variantANext from rfl, variantANext]
    cases hb : truthyOpt (lookupJ "video_url" (mergeState s u)) with
    | true =>
      simp only [videoGateNext, should_analyze_video, hb, if_true, beq_self_eq_true]
      obtain ⟨hvs, hvd, hve⟩ := execFromA_analyze_video effects f (mergeState s u) hf3
      cases hrec : execFrom (variantA effects) f NodeName.analyze_video
          (mergeState s u) with
      | done sf2 tr2 =>
        rcases hvd sf2 tr2 hrec with htr2 | htr2 <;> subst htr2
        · exact ⟨by simp, fun sf tr htr => by cases htr; exact Or.inr (Or.inr (Or.inl rfl)),
            fun _ => ⟨_, _, rfl⟩⟩
        · exact ⟨by simp,
            fun sf tr htr => by cases htr; exact Or.inr (Or.inr (Or.inr rfl)),
            fun _ => ⟨_, _, rfl⟩⟩
      | stepLimitExceeded => exact absurd hrec hvs
      | nodeError e =>
        refine ⟨by simp, by simp, ?_⟩
        intro heff
        obtain ⟨sf, tr, hdone⟩ := hve heff
        rw [hdone] at hrec
        cases hrec
      | routerLabelError l =>
        refine ⟨by simp, by simp, ?_⟩
        intro heff
        obtain ⟨sf, tr, hdone⟩ := hve heff
        rw [hdone] at hrec
        cases hrec
    | false =>
      simp only [videoGateNext, should_analyze_video, hb, Bool.false_eq_true, if_false,
        show (("create_report" : String) == "analyze_video") = false from rfl,
        show (("create_report" : String) == "create_report") = true from rfl, if_true]
      obtain ⟨hrs, hrd, hre⟩ := execFromA_create_report effects f (mergeState s u) hf2
      cases hrec : execFrom (variantA effects) f NodeName.create_report
          (mergeState s u) with
      | done sf2 tr2 =>
        rcases hrd sf2 tr2 hrec with htr2 | htr2 <;> subst htr2
        · exact ⟨by simp, fun sf tr htr => by cases htr; exact Or.inl rfl,
            fun _ => ⟨_, _, rfl⟩⟩
        · exact ⟨by simp, fun sf tr htr => by cases htr; exact Or.inr (Or.inl rfl),
            fun _ => ⟨_, _, rfl⟩⟩
      | stepLimitExceeded => exact absurd hrec hrs
      | nodeError e =>
        refine ⟨by simp, by simp, ?_⟩
        intro heff
        obtain ⟨sf, tr, hdone⟩ := hre heff
        rw [hdone] at hrec
        cases hrec
      | routerLabelError l =>
        refine ⟨by simp, by simp, ?_⟩
        intro heff
        obtain ⟨sf, tr, hdone⟩ := hre heff
        rw [hdone] at hrec
        cases hrec

theorem execFromA_identify_leads (effects : NodeName → StateMap → Except PyExn StateMap)
    (fuel : Nat) (s : StateMap) (h : 5 ≤ fuel) :
    execFrom (variantA effects) fuel NodeName.identify_leads s ≠
      ExecResult.stepLimitExceeded ∧
    (∀ sf tr, execFrom (variantA effects) fuel NodeName.identify_leads s =
      ExecResult.done sf tr →
      ∃ tr2, tr = NodeName.identify_leads :: tr2 ∧
        (tr2 = [NodeName.search_linkedin_via_cse, NodeName.create_report] ∨
         tr2 = [NodeName.search_linkedin_via_cse, NodeName.create_report,
                NodeName.create_podcast] ∨
         tr2 = [NodeName.search_linkedin_via_cse, NodeName.analyze_video,
                NodeName.create_report] ∨
         tr2 = [NodeName.search_linkedin_via_cse, NodeName.analyze_video,
                NodeName.create_report, NodeName.create_podcast])) ∧
    (EffectsTotal effects → ∃ sf tr,
      execFrom (variantA effects) fuel NodeName.identify_leads s =
        ExecResult.done sf tr) := by
  obtain ⟨f, rfl⟩ : ∃ f, fuel = f + 1 := ⟨fuel - 1, by omega⟩
  have hf : 4 ≤ f := by omega
  simp only [execFrom]
  cases hstep : (variantA effects).step NodeName.identify_leads s with
  | error e =>
    refine ⟨by simp, by simp, ?_⟩
    intro heff
    obtain ⟨u, hu⟩ := heff NodeName.identify_leads s
    rw [show (variantA effects).step = effects from rfl] at hstep
    rw [hu] at hstep
    cases hstep
  | ok u =>
    simp only [show (variantA effects).next = variantANext from rfl, variantANext]
    obtain ⟨hcs, hcd, hce⟩ := execFromA_search_linkedin_via_cse effects f (mergeState s u) hf
    cases hrec : execFrom (variantA effects) f NodeName.search_linkedin_via_cse
        (mergeState s u) with
    | done sf2 tr2 =>
      have htr2 := hcd sf2 tr2 hrec
      exact ⟨by simp, fun sf tr htr => by cases htr; exact ⟨tr2, rfl, htr2⟩,
        fun _ => ⟨_, _, rfl⟩⟩
    | stepLimitExceeded => exact absurd hrec hcs
    | nodeError e =>
      refine ⟨by simp, by simp, ?_⟩
      intro heff
      obtain ⟨sf, tr, hdone⟩ := hce heff
      rw [hdone] at hrec
      cases hrec
    | routerLabelError l =>
      refine ⟨by simp, by simp, ?_⟩
      intro heff
      obtain ⟨sf, tr, hdone⟩ := hce heff
      rw [hdone] at hrec
      cases hrec

theorem execFromA_company_topic_research
    (effects : NodeName → StateMap → Except PyExn StateMap)
    (fuel : Nat) (s : StateMap) (h : 6 ≤ fuel) :
    execFrom (variantA effects) fuel NodeName.company_topic_research s ≠
      ExecResult.stepLimitExceeded ∧
    (∀ sf tr, execFrom (variantA effects) fuel NodeName.company_topic_research s =
      ExecResult.done sf tr →
      ∃ tr2, tr = NodeName.company_topic_research :: NodeName.identify_leads :: tr2 ∧
        (tr2 = [NodeName.search_linkedin_via_cse, NodeName.create_report] ∨
         tr2 = [NodeName.search_linkedin_via_cse, NodeName.create_report,
                NodeName.create_podcast] ∨
         tr2 = [NodeName.search_linkedin_via_cse, NodeName.analyze_video,
                NodeName.create_report] ∨
         tr2 = [NodeName.search_linkedin_via_cse, NodeName.analyze_video,
                NodeName.create_report, NodeName.create_podcast])) ∧
    (EffectsTotal effects → ∃ sf tr,
      execFrom (variantA effects) fuel NodeName.company_topic_research s =
        ExecResult.done sf tr) := by
  obtain ⟨f, rfl⟩ : ∃ f, fuel = f + 1 := ⟨fuel - 1, by omega⟩
  have hf : 5 ≤ f := by omega
  simp only [execFrom]
  cases hstep : (variantA effects).step NodeName.company_topic_research s with
  | error e =>
    refine ⟨by simp, by simp, ?_⟩
    intro heff
    obtain ⟨u, hu⟩ := heff NodeName.company_topic_research s
    rw [show (variantA effects).step = effects from rfl] at hstep
    rw [hu] at hstep
    cases hstep
  | ok u =>
    simp only [show (variantA effects).next = variantANext from rfl, variantANext]
    obtain ⟨his, hid, hie⟩ := execFromA_identify_leads effects f (mergeState s u) hf
    cases hrec : execFrom (variantA effects) f NodeName.identify_leads
        (mergeState s u) with
    | done sf2 tr2 =>
      obtain ⟨tr3, htr2, htr3⟩ := hid sf2 tr2 hrec
      subst htr2
      exact ⟨by simp, fun sf tr htr => by cases htr; exact ⟨tr3, rfl, htr3⟩,
        fun _ => ⟨_, _, rfl⟩⟩
    | stepLimitExceeded => exact absurd hrec his
    | nodeError e =>
      refine ⟨by simp, by simp, ?_⟩
      intro heff
      obtain ⟨sf, tr, hdone⟩ := hie heff
      rw [hdone] at hrec
      cases hrec
    | routerLabelError l =>
      refine ⟨by simp, by simp, ?_⟩
      intro heff
      obtain ⟨sf, tr, hdone⟩ := hie heff
      rw [hdone] at hrec
      cases hrec

/-- Claim C4: for every input state and every outcome of the three
routers (and arbitrary step outcomes), a run of the Variant A graph never
exhausts a step budget of at least 6 — the topology has no reachable
cycle, every completed run visits each declared node at most once
(`Nodup`) in a trace of length at most 6, and when every step returns an
update the run reaches the terminal; whereas a graph whose router cycles
back to an earlier node exhausts any budget and raises
`StepLimitExceeded`. -/
theorem C4_termination :
    (∀ (effects : NodeName → StateMap → Except PyExn StateMap) (fuel : Nat)
       (s : StateMap), 6 ≤ fuel →
      runGraph (variantA effects) fuel s ≠ ExecResult.stepLimitExceeded ∧
      (∀ sf tr, runGraph (variantA effects) fuel s = ExecResult.done sf tr →
        tr.Nodup ∧ tr.length ≤ 6) ∧
      (EffectsTotal effects → ∃ sf tr,
        runGraph (variantA effects) fuel s = ExecResult.done sf tr)) ∧
    (∀ fuel s, execFrom loopGraph fuel () s = ExecResult.stepLimitExceeded) := by
  constructor
  · intro effects fuel s hfuel
    have hentry : variantAEntry s = NextStep.toNode NodeName.search_research ∨
        variantAEntry s = NextStep.toNode NodeName.company_topic_research := by
      unfold variantAEntry should_perform_company_research
      by_cases h1 : getEqStr s "research_approach" "Topic Company Leads" = true
      · rw [if_pos h1]
        by_cases h2 : (!truthyOpt (lookupJ "company_name" s) ||
            !truthyOpt (lookupJ "title_areas" s)) = true
        · rw [if_pos h2]
          left
          rfl
        · rw [if_neg h2]
          right
          rfl
      · rw [if_neg h1]
        left
        rfl
    rcases hentry with he | he
    · obtain ⟨hs, hd, heD⟩ := execFromA_search_research effects fuel s (by omega)
      unfold runGraph
      rw [show (variantA effects).entry = variantAEntry from rfl, he]
      refine ⟨hs, ?_, heD⟩
      intro sf tr htr
      rcases hd sf tr htr with h | h | h | h <;> subst h <;> exact ⟨by decide, by decide⟩
    · obtain ⟨hs, hd, heD⟩ := execFromA_company_topic_research effects fuel s (by omega)
      unfold runGraph
      rw [show (variantA effects).entry = variantAEntry from rfl, he]
      refine ⟨hs, ?_, heD⟩
      intro sf tr htr
      obtain ⟨tr2, rfl, h4⟩ := hd sf tr htr
      rcases h4 with h | h | h | h <;> subst h <;> exact ⟨by decide, by decide⟩
  · intro fuel
    induction fuel with
    | zero => intro s; rfl
    | succ f ih =>
      intro s
      have ih' := ih s
      simp only [loopGraph] at ih'
      simp only [execFrom, loopGraph, mergeState_nil, ih']

/-- Witness for C4: the all-ok run from the empty state completes with
the two-node topic-only trace, which is duplicate-free; the theorem's
bound applies at the LangGraph default budget of 25. -/
theorem C4_termination_witness :
    runGraph (variantA (fun _ _ => Except.ok [])) 25 [] =
      ExecResult.done [] [NodeName.search_research, NodeName.create_report] ∧
    ([NodeName.search_research, NodeName.create_report] : List NodeName).Nodup ∧
    execFrom loopGraph 25 () [] = ExecResult.stepLimitExceeded := by
  refine ⟨rfl, ?_, C4_termination.2 25 []⟩
  exact ((C4_termination.1 (fun _ _ => Except.ok []) 25 [] (by omega)).2.1 []
    [NodeName.search_research, NodeName.create_report] rfl).1

/-! ### C6: the topic-only scenario -/

/-- Claim C6: for the input `{topic:"T", research_approach:"Topic Only",
create_podcast:false}` with no `video_url`, the Variant A run visits
exactly `search_research` then `create_report` (whatever the search text,
synthesis text, storage configuration and upload outcome are — the
collaborators of every other node would raise if invoked), and the
output projection contains a `report` while the podcast fields are not
populated. -/
theorem C6_scenario_topic_only (st sst sy : String) (bucket : Option String)
    (up : Except PyExn String) :
    ∃ sf, runGraph (variantA (nodeEffects (scene1Oracles st sst sy bucket up))) 25
        [("topic", Json.str "T"), ("research_approach", Json.str "Topic Only"),
         ("create_podcast", Json.bool false)] =
      ExecResult.done sf [NodeName.search_research, NodeName.create_report] ∧
      (lookupJ "report" (projectOutput sf)).isSome = true ∧
      lookupJ "podcast_script" (projectOutput sf) = none ∧
      lookupJ "podcast_url" (projectOutput sf) = none := by
  obtain ⟨X, hX⟩ : ∃ X, create_report_node
      [("topic", Json.str "T"), ("research_approach", Json.str "Topic Only"),
       ("create_podcast", Json.bool false), ("search_text", Json.str st),
       ("search_sources_text", Json.str sst)] (scene1Oracles st sst sy bucket up) =
      Except.ok [("report", Json.str X), ("synthesis_text", Json.str sy)] := by
    by_cases hb : envSet bucket = true
    · cases hup : up with
      | ok url =>
        refine ⟨url, ?_⟩
        simp [create_report_node, create_research_report, scene1Oracles, subscript,
          Bind.bind, Except.bind, hb, hup, lookupJ]
      | error e =>
        refine ⟨reportContent
          ⟨Json.str "T", Json.str "Topic Only", Json.str st, Json.null, Json.str sst,
           Json.null, Json.null, Json.null, Json.null, Json.null, Json.null⟩ sy, ?_⟩
        simp [create_report_node, create_research_report, scene1Oracles, subscript,
          Bind.bind, Except.bind, hb, hup, lookupJ]
    · have hb' : envSet bucket = false := Bool.eq_false_iff.mpr hb
      refine ⟨reportContent
        ⟨Json.str "T", Json.str "Topic Only", Json.str st, Json.null, Json.str sst,
         Json.null, Json.null, Json.null, Json.null, Json.null, Json.null⟩ sy, ?_⟩
      simp [create_report_node, create_research_report, scene1Oracles, subscript,
        Bind.bind, Except.bind, hb', lookupJ]
  have e2 : execFrom (variantA (nodeEffects (scene1Oracles st sst sy bucket up))) 24
      NodeName.create_report
      [("topic", Json.str "T"), ("research_approach", Json.str "Topic Only"),
       ("create_podcast", Json.bool false), ("search_text", Json.str st),
       ("search_sources_text", Json.str sst)] =
      ExecResult.done
        [("topic", Json.str "T"), ("research_approach", Json.str "Topic Only"),
         ("create_podcast", Json.bool false), ("search_text", Json.str st),
         ("search_sources_text", Json.str sst), ("report", Json.str X),
         ("synthesis_text", Json.str sy)] [NodeName.create_report] := by
    show execFrom (variantA (nodeEffects (scene1Oracles st sst sy bucket up))) (23 + 1)
        NodeName.create_report _ = _
    rw [execFrom]
    rw [show (variantA (nodeEffects (scene1Oracles st sst sy bucket up))).step
        NodeName.create_report
        [("topic", Json.str "T"), ("research_approach", Json.str "Topic Only"),
         ("create_podcast", Json.bool false), ("search_text", Json.str st),
         ("search_sources_text", Json.str sst)] =
      Except.ok [("report", Json.str X), ("synthesis_text", Json.str sy)] from hX]
    rfl
  have e1 : execFrom (variantA (nodeEffects (scene1Oracles st sst sy bucket up))) 25
      NodeName.search_research
      [("topic", Json.str "T"), ("research_approach", Json.str "Topic Only"),
       ("create_podcast", Json.bool false)] =
      ExecResult.done
        [("topic", Json.str "T"), ("research_approach", Json.str "Topic Only"),
         ("create_podcast", Json.bool false), ("search_text", Json.str st),
         ("search_sources_text", Json.str sst), ("report", Json.str X),
         ("synthesis_text", Json.str sy)]
        [NodeName.search_research, NodeName.create_report] := by
    show execFrom (variantA (nodeEffects (scene1Oracles st sst sy bucket up))) (24 + 1)
        NodeName.search_research _ = _
    rw [execFrom]
    rw [show (variantA (nodeEffects (scene1Oracles st sst sy bucket up))).step
        NodeName.search_research
        [("topic", Json.str "T"), ("research_approach", Json.str "Topic Only"),
         ("create_podcast", Json.bool false)] =
      Except.ok [("search_text", Json.str st), ("search_sources_text", Json.str sst)]
      from rfl]
    simp only []
    rw [show (mergeState
        [("topic", Json.str "T"), ("research_approach", Json.str "Topic Only"),
         ("create_podcast", Json.bool false)]
        [("search_text", Json.str st), ("search_sources_text", Json.str sst)]) =
      [("topic", Json.str "T"), ("research_approach", Json.str "Topic Only"),
       ("create_podcast", Json.bool false), ("search_text", Json.str st),
       ("search_sources_text", Json.str sst)] from rfl]
    rw [show (variantA (nodeEffects (scene1Oracles st sst sy bucket up))).next
        NodeName.search_research
        [("topic", Json.str "T"), ("research_approach", Json.str "Topic Only"),
         ("create_podcast", Json.bool false), ("search_text", Json.str st),
         ("search_sources_text", Json.str sst)] =
      NextStep.toNode NodeName.create_report from rfl]
    simp only []
    rw [e2]
  refine ⟨[("topic", Json.str "T"), ("research_approach", Json.str "Topic Only"),
    ("create_podcast", Json.bool false), ("search_text", Json.str st),
    ("search_sources_text", Json.str sst), ("report", Json.str X),
    ("synthesis_text", Json.str sy)], ?_, rfl, rfl, rfl⟩
  rw [show runGraph (variantA (nodeEffects (scene1Oracles st sst sy bucket up))) 25
      [("topic", Json.str "T"), ("research_approach", Json.str "Topic Only"),
       ("create_podcast", Json.bool false)] =
    execFrom (variantA (nodeEffects (scene1Oracles st sst sy bucket up))) 25
      NodeName.search_research
      [("topic", Json.str "T"), ("research_approach", Json.str "Topic Only"),
       ("create_podcast", Json.bool false)] from rfl]
  exact e1

/-! ### C7: the output projection -/

theorem keysOf_projectOutput_sub (s : StateMap) :
    ∀ k, k ∈ keysOf (projectOutput s) → k ∈ outputKeys := by
  intro k hk
  unfold keysOf projectOutput at hk
  obtain ⟨⟨k', v⟩, hmem, rfl⟩ := List.mem_map.mp hk
  have hc := List.of_mem_filter hmem
  simpa using hc

theorem lookupJ_projectOutput_not_output (s : StateMap) (k : String)
    (h : k ∉ outputKeys) : lookupJ k (projectOutput s) = none := by
  induction s with
  | nil => rfl
  | cons kv rest ih =>
    obtain ⟨k', v⟩ := kv
    unfold projectOutput at ih ⊢
    by_cases hc : outputKeys.contains k' = true
    · rw [List.filter_cons_of_pos (by simpa using hc)]
      have hne : k' ≠ k := by
        intro he
        subst he
        exact h (by simpa using hc)
      simp only [lookupJ, if_neg hne]
      exact ih
    · rw [List.filter_cons_of_neg (by simpa using hc)]
      exact ih

/-- Claim C7: for every run of Variant A with the embedded node effects,
the output projection of the final state contains only fields of the
declared output schema (`report`, `podcast_script`, `podcast_url`,
`identified_leads`); the internal intermediate fields — including
`linkedin_cse_contacts` written by the contact-search step — never
appear in it. -/
theorem C7_output_projection (o : Oracles) (fuel : Nat) (s sf : StateMap)
    (tr : List NodeName)
    (_hrun : runGraph (variantA (nodeEffects o)) fuel s = ExecResult.done sf tr) :
    (∀ k, k ∈ keysOf (projectOutput sf) → k ∈ outputKeys) ∧
    (∀ k, k ∈ ["search_text", "search_sources_text", "video_text",
        "company_specific_topic_research_text", "company_info_text",
        "identified_leads_data", "synthesis_text", "linkedin_cse_contacts"] →
      lookupJ k (projectOutput sf) = none) := by
  refine ⟨keysOf_projectOutput_sub sf, ?_⟩
  intro k hk
  apply lookupJ_projectOutput_not_output
  intro hout
  simp only [List.mem_cons, List.not_mem_nil, or_false] at hk
  rcases hk with h | h | h | h | h | h | h | h <;> subst h <;> revert hout <;> decide

/-- Witness for C7 on a concrete completed run (topic-only scenario with
unconfigured storage): the final state holds the internal `search_text`
field, and the projection drops it while keeping `report`. -/
theorem C7_output_projection_witness :
    (lookupJ "search_text"
      [("topic", Json.str "T"), ("research_approach", Json.str "Topic Only"),
       ("create_podcast", Json.bool false), ("search_text", Json.str "ST"),
       ("search_sources_text", Json.str "SS"),
       ("report", Json.str (reportContent
         ⟨Json.str "T", Json.str "Topic Only", Json.str "ST", Json.null,
          Json.str "SS", Json.null, Json.null, Json.null, Json.null, Json.null,
          Json.null⟩ "SY")),
       ("synthesis_text", Json.str "SY")]).isSome = true ∧
    lookupJ "search_text" (projectOutput
      [("topic", Json.str "T"), ("research_approach", Json.str "Topic Only"),
       ("create_podcast", Json.bool false), ("search_text", Json.str "ST"),
       ("search_sources_text", Json.str "SS"),
       ("report", Json.str (reportContent
         ⟨Json.str "T", Json.str "Topic Only", Json.str "ST", Json.null,
          Json.str "SS", Json.null, Json.null, Json.null, Json.null, Json.null,
          Json.null⟩ "SY")),
       ("synthesis_text", Json.str "SY")]) = none ∧
    (lookupJ "report" (projectOutput
      [("topic", Json.str "T"), ("research_approach", Json.str "Topic Only"),
       ("create_podcast", Json.bool false), ("search_text", Json.str "ST"),
       ("search_sources_text", Json.str "SS"),
       ("report", Json.str (reportContent
         ⟨Json.str "T", Json.str "Topic Only", Json.str "ST", Json.null,
          Json.str "SS", Json.null, Json.null, Json.null, Json.null, Json.null,
          Json.null⟩ "SY")),
       ("synthesis_text", Json.str "SY")])).isSome = true := by
  refine ⟨rfl, ?_, rfl⟩
  exact (C7_output_projection (scene1Oracles "ST" "SS" "SY" none (Except.ok "U")) 25
    [("topic", Json.str "T"), ("research_approach", Json.str "Topic Only"),
     ("create_podcast", Json.bool false)] _
    [NodeName.search_research, NodeName.create_report] rfl).2 "search_text"
    (by simp)

end ResearchAgent
